import Mathlib

/-
  Verification development for the plex-unwrapped repository.

  The repository computes per-user "year in review" statistics for a Plex
  media server (backend: Express/TypeScript, frontend: Next.js, store:
  PostgreSQL).  This file gives a shallow embedding of the parts of the
  program relevant to the stated claims:

  * the backend i18n service (`backend/src/services/i18n.service.ts`);
  * the frontend locale resolution helpers (`frontend/lib/locale.ts`);
  * the fun-facts slide of the wrapped page
    (`frontend/app/wrapped/[token]/page.tsx`);
  * the database schema (`backend/database/init.sql`, shipped in
    `database/migrations/001_add_preferred_language.sql`);
  * the generation orchestrator and e-mail endpoints
    (`backend/src/routes/admin.routes.ts`);
  * the statistics aggregation engine (`backend/src/processors/
    stats-calculator.ts`, not shipped in the source tree; modelled from the
    specification).

  Machine integers do not overflow in any of the modelled code paths
  (JavaScript numbers hold exact integers far beyond the ranges appearing
  here), so counters are embedded as `Nat`/`Int` and monetary-style decimal
  values as `ℚ`.
-/

/-! ## Backend i18n service, `backend/src/services/i18n.service.ts` -/

namespace I18n

/-- A parsed JSON value, the shape of a loaded translation table.  The
source stores `Translations` as an arbitrary object parsed by
`JSON.parse`. -/
inductive JsonValue where
  | str (s : String)
  | num (q : ℚ)
  | boolean (b : Bool)
  | null
  | arr (items : List JsonValue)
  | obj (fields : List (String × JsonValue))

/-- Source: `export const defaultLocale: Locale = 'en'`. -/
def defaultLocale : String := "en"

/-- Source: `export const supportedLocales: Locale[] = ['en', 'es', 'fr', 'de', 'sl']`. -/
def supportedLocales : List String := ["en", "es", "fr", "de", "sl"]

/-- The loaded translation tables (`this.translations: Map<Locale, Translations>`),
embedded as an association list from locale to parsed table. -/
def tablesGet (tables : List (String × JsonValue)) (locale : String) : Option JsonValue :=
  (tables.find? (fun p => p.1 == locale)).map (fun p => p.2)

/-- Whether a table is loaded for a locale (`this.translations.get(locale)`
returns a value). -/
def hasTable (tables : List (String × JsonValue)) (locale : String) : Bool :=
  tables.any (fun p => p.1 == locale)

/-- Splits a list of characters on `.` (character code 46), matching the
JavaScript `key.split('.')` semantics: the empty string yields `[""]`,
separators at the ends yield empty components. -/
def splitDotChars : List Char → List (List Char)
  | [] => [[]]
  | c :: cs =>
      if c = Char.ofNat 46 then [] :: splitDotChars cs
      else
        match splitDotChars cs with
        | h :: t => (c :: h) :: t
        | [] => [[c]]

/-- Source: `const keys = key.split('.')`. -/
def splitDot (s : String) : List String := (splitDotChars s.data).map String.mk

/-- Digits of a canonical decimal numeral to a number. -/
def digitsToNat (l : List Char) : Nat := l.foldl (fun a c => a * 10 + (c.toNat - 48)) 0

/-- The canonical array-index strings for which JavaScript `k in value` holds
on an array value: `"0"`, or digits without a leading zero.  (Inherited
prototype properties such as `length` are never string-valued, so omitting
them does not change the output of `translate`.) -/
def parseArrayIndex (s : String) : Option Nat :=
  match s.data with
  | [] => none
  | c :: rest =>
      if (c :: rest).all Char.isDigit then
        if c = Char.ofNat 48 ∧ rest ≠ [] then none
        else some (digitsToNat (c :: rest))
      else none

/-- One step of the navigation loop: the branch
`if (value && typeof value === 'object' && k in value) value = value[k]`.
Only non-null objects and arrays pass the guard. -/
def childLookup : JsonValue → String → Option JsonValue
  | JsonValue.obj fields, k => (fields.find? (fun p => p.1 == k)).map (fun p => p.2)
  | JsonValue.arr items, k => (parseArrayIndex k).bind (fun i => items.get? i)
  | _, _ => none

/-- The navigation loop of `translate` over the dot-separated key path;
`none` corresponds to the early `return key`. -/
def resolvePath : JsonValue → List String → Option JsonValue
  | v, [] => some v
  | v, k :: ks =>
      match childLookup v k with
      | some v2 => resolvePath v2 ks
      | none => none

/-- A word character of the interpolation regex `/\{(\w+)\}/g`:
ASCII letters, digits and underscore. -/
def isWordChar (c : Char) : Bool := c.isAlphanum || c = Char.ofNat 95

/-- Tries to read `name}` (a nonempty run of word characters closed by `}`,
character code 125) at the head of the input, as the regex engine does just
after an opening brace. -/
def tryParam (cs : List Char) : Option (List Char × List Char) :=
  match cs.takeWhile isWordChar, cs.dropWhile isWordChar with
  | [], _ => none
  | name, c :: rest => if c = Char.ofNat 125 then some (name, rest) else none
  | _, [] => none

theorem tryParam_length {cs n r : List Char} (h : tryParam cs = some (n, r)) :
    r.length < cs.length := by
  unfold tryParam at h
  rcases hd : cs.dropWhile isWordChar with _ | ⟨c, rest⟩ <;>
    rcases ht : cs.takeWhile isWordChar with _ | ⟨c2, rest2⟩ <;>
      simp [hd, ht] at h
  · rcases h with ⟨hc, hn, hr⟩
    have hsub : (cs.dropWhile isWordChar).length ≤ cs.length :=
      (List.dropWhile_sublist _).length_le
    rw [hd] at hsub
    simp only [List.length_cons] at hsub
    subst hr
    omega

/-- Replacement text for one matched parameter: the stringified parameter
value when defined, otherwise the match itself
(`params[key] !== undefined ? String(params[key]) : match`). -/
def lookupParam (params : List (String × String)) (name : List Char) : List Char :=
  match params.find? (fun p => p.1 == String.mk name) with
  | some p => p.2.data
  | none => Char.ofNat 123 :: name ++ [Char.ofNat 125]

/-- Global left-to-right replacement of `/\{(\w+)\}/g` over the template,
one character at a time (character code 123 is the opening brace). -/
def interpolateGo (params : List (String × String)) : List Char → List Char
  | [] => []
  | c :: rest =>
      if c = Char.ofNat 123 then
        match htp : tryParam rest with
        | some (name, rest2) => lookupParam params name ++ interpolateGo params rest2
        | none => c :: interpolateGo params rest
      else c :: interpolateGo params rest
termination_by l => l.length
decreasing_by
  · exact Nat.lt_succ_of_lt (tryParam_length htp)
  · simp
  · simp

/-- Source: `private interpolate(template: string, params: Record<string, any>): string`. -/
def interpolate (template : String) (params : List (String × String)) : String :=
  String.mk (interpolateGo params template.data)

/-- The table `translate` works from:
`this.translations.get(locale) || this.translations.get(defaultLocale)`. -/
def effectiveTable (tables : List (String × JsonValue)) (locale : String) : Option JsonValue :=
  (tablesGet tables locale).orElse (fun _ => tablesGet tables defaultLocale)

/-- Source: `translate(key, locale = defaultLocale, params?)`.  Returns the
key when no table is available, when the path fails to resolve, or when the
resolved value is not a string; otherwise the resolved string, interpolated
when a params object was passed. -/
def translate (tables : List (String × JsonValue)) (key : String) (locale : String)
    (params : Option (List (String × String))) : String :=
  match effectiveTable tables locale with
  | none => key
  | some t =>
      match resolvePath t (splitDot key) with
      | some (JsonValue.str v) =>
          match params with
          | some ps => interpolate v ps
          | none => v
      | _ => key

/-- The string the key path resolves to through the effective table, when it
resolves to a string at all.  Helper for stating the behaviour of
`translate`. -/
def resolvedString (tables : List (String × JsonValue)) (locale : String)
    (key : String) : Option String :=
  match effectiveTable tables locale with
  | none => none
  | some t =>
      match resolvePath t (splitDot key) with
      | some (JsonValue.str v) => some v
      | _ => none

end I18n

/-! ## Frontend locale resolution, `frontend/lib/locale.ts` -/

namespace FrontendLocale

/-- Modelled from the spec: the frontend module `lib/i18n` (imported by
`lib/locale.ts` for `locales` and `defaultLocale`) is not in the source
tree; its values are taken from the backend i18n service and the admin
route's validated language list (`en, es, fr, de, sl`). -/
def locales : List String := ["en", "es", "fr", "de", "sl"]

/-- Modelled from the spec: default locale of the missing `lib/i18n`
module, `'en'` as everywhere else in the repository. -/
def defaultLocale : String := "en"

/-- The browser-side inputs of the locale helpers: whether `window` is
defined, the `localStorage.getItem('preferredLanguage')` value, and
`navigator.language`. -/
structure BrowserEnv where
  windowDefined : Bool
  stored : Option String
  navigatorLanguage : String

/-- Source: `getLocaleFromURL` — the `lang` query parameter when it is a
supported locale. -/
def getLocaleFromURL (langParam : Option String) : Option String :=
  match langParam with
  | some l => if l ∈ locales then some l else none
  | none => none

/-- Source: `getLocaleFromStorage` — the stored preference when `window`
exists and the value is a supported locale. -/
def getLocaleFromStorage (env : BrowserEnv) : Option String :=
  if env.windowDefined = false then none
  else
    match env.stored with
    | some s => if s ∈ locales then some s else none
    | none => none

/-- The prefix of a string before the first `-`, matching
`navigator.language.split('-')[0]`. -/
def headSplitDash (s : String) : String :=
  String.mk (s.data.takeWhile (fun c => c ≠ Char.ofNat 45))

/-- Source: `getLocaleFromBrowser` — the browser language when supported,
otherwise the default locale. -/
def getLocaleFromBrowser (env : BrowserEnv) : String :=
  if env.windowDefined = false then defaultLocale
  else
    let browserLang := headSplitDash env.navigatorLanguage
    if browserLang ∈ locales then browserLang else defaultLocale

/-- Source: `determineLocale` — priority URL > localStorage > Browser >
Default.  The trailing `|| defaultLocale` of the source is unreachable
because `getLocaleFromBrowser` always returns a nonempty locale string. -/
def determineLocale (langParam : Option String) (env : BrowserEnv) : String :=
  ((getLocaleFromURL langParam).orElse (fun _ => getLocaleFromStorage env)).getD
    (getLocaleFromBrowser env)

end FrontendLocale

/-! ## Fun-facts slide of the wrapped page,
`frontend/app/wrapped/[token]/page.tsx` (Slide 12, "Did You Know?") -/

namespace WrappedPage

/-- The fields of a `topShows` entry used by the fun-facts slide. -/
structure TopShowEntry where
  title : String
  plays : Nat
  episodes : Nat
  ratingKey : Nat
  durationMinutes : Nat
deriving DecidableEq, Repr

/-- The fields of a `topDevices` entry used by the fun-facts slide. -/
structure TopDeviceEntry where
  device : String
  platform : String
  plays : Nat
  minutes : Nat
deriving DecidableEq, Repr

/-- The `qualityStats` object: per-play-decision play counts. -/
structure QualityStatsView where
  transcode : Nat
  directPlay : Nat
  directStream : Nat
deriving DecidableEq, Repr

/-- The slice of the wrapped-stats payload read by the fun-facts slide. -/
structure WrappedStatsView where
  funFacts : List String
  mostActiveDayOfWeek : String
  topShows : List TopShowEntry
  qualityStats : Option QualityStatsView
  totalPlays : Nat
  totalMovies : Nat
  totalTvEpisodes : Nat
  daysActive : Nat
  topDevices : List TopDeviceEntry
deriving DecidableEq, Repr

/-- A fact rendered on the slide, tagged by the translation template it is
built from (`t('funFacts.…', …)`) together with its parameters. -/
inductive Fact where
  | original (s : String)
  | dayOfWeek (day : String)
  | crushedEpisodes (count : Nat) (title : String)
  | originalQuality (percentage : ℤ)
  | preference (movies : Bool)
  | watchedPercentage (percentage : ℤ)
  | favoriteDevice (device : String)
deriving DecidableEq, Repr

/-- The rounded percentage `Math.round((directPlay / totalPlays) * 100)`
(JavaScript `Math.round` is floor of the value plus one half, which is what
Mathlib's `round` computes on `ℚ`; a zero `totalPlays` cannot reach this
expression with a positive `directPlay` on consistent data, and is embedded
as rational division by zero, i.e. zero). -/
def jsRoundPct (part whole : Nat) : ℤ := round (((part : ℚ) * 100) / (whole : ℚ))

/-- The IIFE of Slide 12 building `generatedFacts` before `.slice(0, 6)`:
the backend-provided `stats.funFacts` first, then each conditional push in
source order. -/
def generatedFacts (s : WrappedStatsView) : List Fact :=
  (s.funFacts.map Fact.original)
  ++ (if s.mostActiveDayOfWeek ≠ "" then [Fact.dayOfWeek s.mostActiveDayOfWeek] else [])
  ++ (match s.topShows.head? with
      | some sh => if 20 < sh.episodes then [Fact.crushedEpisodes sh.episodes sh.title] else []
      | none => [])
  ++ (match s.qualityStats with
      | some q =>
          if q.transcode < q.directPlay then
            [Fact.originalQuality (jsRoundPct q.directPlay s.totalPlays)]
          else []
      | none => [])
  ++ [Fact.preference (decide (s.totalTvEpisodes < s.totalMovies))]
  ++ (if s.daysActive < 200 then [Fact.watchedPercentage (jsRoundPct s.daysActive 365)] else [])
  ++ (match s.topDevices.head? with
      | some d => [Fact.favoriteDevice d.device]
      | none => [])

/-- Source: `generatedFacts.slice(0, 6)` — the facts actually rendered. -/
def displayedFunFacts (s : WrappedStatsView) : List Fact :=
  (generatedFacts s).take 6

/-- The six data-driven rules of the slide as an ordered rule table: each
rule either fires with one fact or does not, and they are evaluated in this
fixed order after the backend-provided facts. -/
def funFactRuleTable : List (WrappedStatsView → Option Fact) :=
  [ fun s => if s.mostActiveDayOfWeek ≠ "" then some (Fact.dayOfWeek s.mostActiveDayOfWeek) else none,
    fun s =>
      match s.topShows.head? with
      | some sh => if 20 < sh.episodes then some (Fact.crushedEpisodes sh.episodes sh.title) else none
      | none => none,
    fun s =>
      match s.qualityStats with
      | some q =>
          if q.transcode < q.directPlay then
            some (Fact.originalQuality (jsRoundPct q.directPlay s.totalPlays))
          else none
      | none => none,
    fun s => some (Fact.preference (decide (s.totalTvEpisodes < s.totalMovies))),
    fun s => if s.daysActive < 200 then some (Fact.watchedPercentage (jsRoundPct s.daysActive 365)) else none,
    fun s =>
      match s.topDevices.head? with
      | some d => some (Fact.favoriteDevice d.device)
      | none => none ]

end WrappedPage

/-! ## Database schema, `backend/database/init.sql` -/

namespace Schema

/-- Source: `CHECK (status IN ('pending', 'processing', 'completed',
'failed', 'cancelled'))` on `wrapped_generations`. -/
def allowedGenerationStatuses : List String :=
  ["pending", "processing", "completed", "failed", "cancelled"]

/-- A value of the nullable numeric column
`percentage_of_library_watched DECIMAL(5,2)`: a decimal number or SQL NULL.
The column type admits no other value. -/
inductive PercentageColumnValue where
  | num (q : ℚ)
  | null
deriving DecidableEq, Repr

/-- Source: `percentage_of_library_watched DECIMAL(5,2) DEFAULT 0`. -/
def percentageOfLibraryWatchedDefault : PercentageColumnValue :=
  PercentageColumnValue.num 0

/-- The value the store keeps for `percentage_of_library_watched` when a
stats row is inserted: the supplied value, or the declared column default
when the insert does not supply one. -/
def storedPercentageOfLibraryWatched (provided : Option PercentageColumnValue) :
    PercentageColumnValue :=
  provided.getD percentageOfLibraryWatchedDefault

/-- Source: `CHECK (percentage_of_library_watched >= 0 AND
percentage_of_library_watched <= 100)` (a CHECK on a NULL value is not a
violation in SQL). -/
def percentageCheck : PercentageColumnValue → Prop
  | PercentageColumnValue.num q => 0 ≤ q ∧ q ≤ 100
  | PercentageColumnValue.null => True

/-- A column value that is an explicit "unavailable" marker distinguishable
from the number zero: within the column's value domain, only SQL NULL
qualifies. -/
def isUnavailableSentinel : PercentageColumnValue → Prop
  | PercentageColumnValue.num _ => False
  | PercentageColumnValue.null => True

end Schema

/-! ## Statistics aggregation engine

Modelled from the spec: the engine implementation
(`backend/src/processors/stats-calculator.ts`, imported by the admin routes
as `StatsCalculator` with method `calculateUserStats`) is not in the source
tree; the definitions below follow the specification of the aggregation
engine (spec sections 3, 4, 6 and 7). -/

namespace StatsCalculator

/-- Modelled from the spec: `mediaKind: Movie|Episode` of a WatchEvent. -/
inductive MediaKind where
  | movie
  | episode
deriving DecidableEq, Repr

/-- Modelled from the spec: `playDecision: DirectPlay|DirectStream|Transcode`. -/
inductive PlayDecision where
  | directPlay
  | directStream
  | transcode
deriving DecidableEq, Repr

/-- A civil timestamp (UTC), precise to the minute: the engine buckets by
day, month, day-of-week and hour, and measures gaps in minutes. -/
structure Timestamp where
  year : Nat
  month : Nat
  day : Nat
  hour : Nat
  minute : Nat
deriving DecidableEq, Repr

def isLeapYear (y : Nat) : Bool := (y % 4 == 0 && y % 100 != 0) || y % 400 == 0

def daysInYear (y : Nat) : Nat := if isLeapYear y then 366 else 365

def daysInMonth (y m : Nat) : Nat :=
  if m = 2 then (if isLeapYear y then 29 else 28)
  else if m = 4 ∨ m = 6 ∨ m = 9 ∨ m = 11 then 30 else 31

/-- One-based ordinal of the day within its year. -/
def dayOfYear (t : Timestamp) : Nat :=
  (List.range (t.month - 1)).foldl (fun acc i => acc + daysInMonth t.year (i + 1)) 0 + t.day

/-- Days since the proleptic-Gregorian epoch (0001-01-01 has `absDay = 1`). -/
def absDay (t : Timestamp) : Nat :=
  let y := t.year - 1
  y * 365 + y / 4 - y / 100 + y / 400 + dayOfYear t

/-- Minutes since the epoch; the engine compares start times at this
granularity. -/
def absMinutes (t : Timestamp) : Nat := absDay t * 1440 + t.hour * 60 + t.minute

/-- Day of week with the JavaScript convention Sunday = 0 (0001-01-01 of the
proleptic Gregorian calendar is a Monday, and its `absDay` is 1). -/
def dayOfWeek (t : Timestamp) : Nat := absDay t % 7

/-- Modelled from the spec: the WatchEvent input record of section 3 (one
playback session).  The `set<string>` tag fields are embedded as lists. -/
structure WatchEvent where
  mediaKind : MediaKind
  ratingKey : Nat
  title : String
  showTitle : Option String
  seasonNumber : Option Nat
  episodeNumber : Option Nat
  releaseYear : Option Nat
  startedAt : Timestamp
  durationWatchedMinutes : Int
  device : String
  platform : String
  playDecision : PlayDecision
  resolution : String
  genres : List String
  actors : List String
  directors : List String
deriving DecidableEq, Repr

/-- Modelled from the spec: the optional supplementary input of section 6,
`{ libraryMovieCount, libraryShowCount, requestCountsByTitle }`. -/
structure SupplementaryMetadata where
  libraryMovieCount : Nat
  libraryShowCount : Nat
  requestCountsByTitle : List (String × Nat)
deriving DecidableEq, Repr

/-- Modelled from the spec: the explicit engine configuration of section 9
(binge-gap threshold, rank-list caps, fun-fact cap), with the documented
defaults. -/
structure EngineConfig where
  bingeGapMinutes : Nat := 240
  topListCap : Nat := 10
  tagListCap : Nat := 5
  funFactCap : Nat := 6
deriving DecidableEq, Repr

/-! ### Canonical ordering of events

The engine must not assume any input ordering; it sorts internally by a
total order on whole events (chronological first, then every remaining
field), so that any two permutations of the same input flatten to the same
working list. -/

/-- Tokens of the canonical sort key: a number or a string, compared
lexicographically with numbers before strings. -/
abbrev Tok := Lex (Nat ⊕ String)

def tokN (n : Nat) : Tok := toLex (Sum.inl n)

def tokS (s : String) : Tok := toLex (Sum.inr s)

/-- Length-prefixes a field encoding so that concatenated fields can be
split back unambiguously. -/
def pack (l : List Tok) : List Tok := tokN l.length :: l

def encTimestamp (t : Timestamp) : List Tok :=
  [tokN t.year, tokN t.month, tokN t.day, tokN t.hour, tokN t.minute]

def encInt (i : Int) : List Tok := [tokN (if i < 0 then 0 else 1), tokN i.natAbs]

def encOptN : Option Nat → List Tok
  | none => [tokN 0]
  | some n => [tokN 1, tokN n]

def encOptS : Option String → List Tok
  | none => [tokN 0]
  | some s => [tokN 1, tokS s]

def encKind : MediaKind → List Tok
  | MediaKind.movie => [tokN 0]
  | MediaKind.episode => [tokN 1]

def encPD : PlayDecision → List Tok
  | PlayDecision.directPlay => [tokN 0]
  | PlayDecision.directStream => [tokN 1]
  | PlayDecision.transcode => [tokN 2]

def encStrList (l : List String) : List Tok := l.map tokS

/-- The full canonical sort key of an event: start time first (so the
canonical list is chronological), then every other field, each
length-prefixed. -/
def encode (e : WatchEvent) : List Tok :=
  pack (encTimestamp e.startedAt) ++ (pack [tokN e.ratingKey] ++ (pack (encKind e.mediaKind) ++
  (pack [tokS e.title] ++ (pack (encOptS e.showTitle) ++ (pack (encOptN e.seasonNumber) ++
  (pack (encOptN e.episodeNumber) ++ (pack (encOptN e.releaseYear) ++
  (pack (encInt e.durationWatchedMinutes) ++ (pack [tokS e.device] ++ (pack [tokS e.platform] ++
  (pack (encPD e.playDecision) ++ (pack [tokS e.resolution] ++ (pack (encStrList e.genres) ++
  (pack (encStrList e.actors) ++ pack (encStrList e.directors)))))))))))))))

theorem pack_append_cancel {l1 l2 x y : List Tok}
    (h : pack l1 ++ x = pack l2 ++ y) : l1 = l2 ∧ x = y := by
  simp only [pack, List.cons_append, List.cons.injEq] at h
  have hlen : l1.length = l2.length := by simpa [tokN] using h.1
  exact List.append_inj h.2 hlen

theorem tokS_injective : Function.Injective tokS := by
  intro a b h
  simpa [tokS] using h

theorem encStrList_inj {l1 l2 : List String} (h : encStrList l1 = encStrList l2) :
    l1 = l2 :=
  List.map_injective_iff.mpr tokS_injective h

theorem encTimestamp_inj {t1 t2 : Timestamp} (h : encTimestamp t1 = encTimestamp t2) :
    t1 = t2 := by
  cases t1; cases t2
  simp [encTimestamp, tokN] at h
  simp [h.1, h.2.1, h.2.2.1, h.2.2.2.1, h.2.2.2.2]

theorem encInt_inj {i j : Int} (h : encInt i = encInt j) : i = j := by
  simp only [encInt, List.cons.injEq, List.nil_eq] at h
  have h1 : (if i < 0 then (0 : Nat) else 1) = (if j < 0 then 0 else 1) := by
    simpa [tokN] using h.1
  have h2 : i.natAbs = j.natAbs := by simpa [tokN] using h.2.1
  by_cases hi : i < 0 <;> by_cases hj : j < 0 <;> simp [hi, hj] at h1 ⊢ <;> omega

theorem encOptN_inj {a b : Option Nat} (h : encOptN a = encOptN b) : a = b := by
  cases a <;> cases b <;> simp [encOptN, tokN] at h <;> simp [h]

theorem encOptS_inj {a b : Option String} (h : encOptS a = encOptS b) : a = b := by
  cases a <;> cases b <;> simp [encOptS, tokN, tokS] at h <;> simp [h]

theorem encKind_inj {a b : MediaKind} (h : encKind a = encKind b) : a = b := by
  cases a <;> cases b <;> simp [encKind, tokN] at h ⊢

theorem encPD_inj {a b : PlayDecision} (h : encPD a = encPD b) : a = b := by
  cases a <;> cases b <;> simp [encPD, tokN] at h ⊢

theorem encode_injective : Function.Injective encode := by
  intro a b h
  unfold encode at h
  obtain ⟨h01, h⟩ := pack_append_cancel h
  obtain ⟨h02, h⟩ := pack_append_cancel h
  obtain ⟨h03, h⟩ := pack_append_cancel h
  obtain ⟨h04, h⟩ := pack_append_cancel h
  obtain ⟨h05, h⟩ := pack_append_cancel h
  obtain ⟨h06, h⟩ := pack_append_cancel h
  obtain ⟨h07, h⟩ := pack_append_cancel h
  obtain ⟨h08, h⟩ := pack_append_cancel h
  obtain ⟨h09, h⟩ := pack_append_cancel h
  obtain ⟨h10, h⟩ := pack_append_cancel h
  obtain ⟨h11, h⟩ := pack_append_cancel h
  obtain ⟨h12, h⟩ := pack_append_cancel h
  obtain ⟨h13, h⟩ := pack_append_cancel h
  obtain ⟨h14, h⟩ := pack_append_cancel h
  obtain ⟨h15, h16⟩ := pack_append_cancel h
  have e01 := encTimestamp_inj h01
  have e02 : a.ratingKey = b.ratingKey := by simpa [tokN] using h02
  have e03 := encKind_inj h03
  have e04 : a.title = b.title := by simpa [tokS] using h04
  have e05 := encOptS_inj h05
  have e06 := encOptN_inj h06
  have e07 := encOptN_inj h07
  have e08 := encOptN_inj h08
  have e09 := encInt_inj h09
  have e10 : a.device = b.device := by simpa [tokS] using h10
  have e11 : a.platform = b.platform := by simpa [tokS] using h11
  have e12 := encPD_inj h12
  have e13 : a.resolution = b.resolution := by simpa [tokS] using h13
  have e14 := encStrList_inj h14
  have e15 := encStrList_inj h15
  have e16 := encStrList_inj (congrArg List.tail h16)
  cases a; cases b
  simp_all

/-- The canonical total order on events: comparison of the injective sort
keys.  Total, transitive and antisymmetric, so every permutation of a list
sorts to the same canonical list. -/
def eventLe (a b : WatchEvent) : Prop := encode a ≤ encode b

instance : DecidableRel eventLe :=
  fun a b => inferInstanceAs (Decidable (encode a ≤ encode b))

instance : IsTotal WatchEvent eventLe :=
  ⟨fun a b => le_total (encode a) (encode b)⟩

instance : IsTrans WatchEvent eventLe :=
  ⟨fun _ _ _ h1 h2 => le_trans h1 h2⟩

instance : IsAntisymm WatchEvent eventLe :=
  ⟨fun _ _ h1 h2 => encode_injective (le_antisymm h1 h2)⟩

/-! ### Normalization and canonicalization (spec sections 4.1 and 6) -/

/-- Modelled from the spec (4.1): an event qualifies when its watched
duration is positive and its timestamp lies inside the target year. -/
def qualifies (year : Nat) (e : WatchEvent) : Bool :=
  decide (0 < e.durationWatchedMinutes) && e.startedAt.year == year

/-- Modelled from the spec (6): defensive de-duplication by
`(ratingKey, startedAt)`, keeping the first occurrence. -/
def dedupGo (seen : List (Nat × Timestamp)) : List WatchEvent → List WatchEvent
  | [] => []
  | e :: rest =>
      if (e.ratingKey, e.startedAt) ∈ seen then dedupGo seen rest
      else e :: dedupGo ((e.ratingKey, e.startedAt) :: seen) rest

/-- The canonical working list of one engine invocation: qualifying events,
sorted by the canonical total order (chronological first), then
de-duplicated by `(ratingKey, startedAt)`. -/
def canonicalize (year : Nat) (events : List WatchEvent) : List WatchEvent :=
  dedupGo [] (List.insertionSort eventLe (events.filter (qualifies year)))

/-! ### Bucketing and top-N ranking (spec sections 4.1 and 4.2) -/

/-- Accumulated measures of one ranking group: play count, minutes sum, and
earliest-observed start time (in absolute minutes). -/
structure GroupAcc where
  plays : Nat
  minutes : Int
  firstSeen : Nat
deriving DecidableEq, Repr

/-- Adds one event occurrence under one group key to an in-order
association list of groups (new keys are appended at the end, i.e. in
first-appearance order of the canonical list). -/
def bumpKey {κ : Type} [DecidableEq κ] (k : κ) (e : WatchEvent) :
    List (κ × GroupAcc) → List (κ × GroupAcc)
  | [] => [(k, { plays := 1, minutes := e.durationWatchedMinutes,
                 firstSeen := absMinutes e.startedAt })]
  | (k2, acc) :: rest =>
      if k = k2 then
        (k2, { plays := acc.plays + 1, minutes := acc.minutes + e.durationWatchedMinutes,
               firstSeen := min acc.firstSeen (absMinutes e.startedAt) }) :: rest
      else (k2, acc) :: bumpKey k e rest

/-- Groups events by a (possibly fanned-out) key function, accumulating
play counts, minutes and earliest timestamps (spec 4.2). -/
def groupBy {κ : Type} [DecidableEq κ] (key : WatchEvent → List κ)
    (evs : List WatchEvent) : List (κ × GroupAcc) :=
  evs.foldl (fun m e => (key e).foldl (fun m2 k => bumpKey k e m2) m) []

/-- Modelled from the spec (4.2): ranking order — play count descending,
then minutes descending, then earliest-observed timestamp ascending. -/
def rankLe {κ : Type} (a b : κ × GroupAcc) : Prop :=
  b.2.plays < a.2.plays ∨
    (a.2.plays = b.2.plays ∧
      (b.2.minutes < a.2.minutes ∨
        (a.2.minutes = b.2.minutes ∧ a.2.firstSeen ≤ b.2.firstSeen)))

instance {κ : Type} : DecidableRel (rankLe (κ := κ)) := fun a b => by
  unfold rankLe
  infer_instance

/-- Ranks groups by `rankLe` and truncates to the cap. -/
def topGroups {κ : Type} [DecidableEq κ] (cap : Nat) (key : WatchEvent → List κ)
    (evs : List WatchEvent) : List (κ × GroupAcc) :=
  (List.insertionSort rankLe (groupBy key evs)).take cap

def movieKey (e : WatchEvent) : List (Nat × String × Option Nat) :=
  match e.mediaKind with
  | MediaKind.movie => [(e.ratingKey, e.title, e.releaseYear)]
  | MediaKind.episode => []

/-- Show identity: the show title of an episode event (episode events
without a show title contribute to no show group). -/
def showKey (e : WatchEvent) : List String :=
  match e.mediaKind, e.showTitle with
  | MediaKind.episode, some t => [t]
  | _, _ => []

def episodeKey (e : WatchEvent) :
    List (Nat × String × Option String × Option Nat × Option Nat) :=
  match e.mediaKind with
  | MediaKind.episode => [(e.ratingKey, e.title, e.showTitle, e.seasonNumber, e.episodeNumber)]
  | MediaKind.movie => []

def genreKeys (e : WatchEvent) : List String := e.genres

def actorKeys (e : WatchEvent) : List String := e.actors

def directorKeys (e : WatchEvent) : List String := e.directors

def deviceKey (e : WatchEvent) : List (String × String) := [(e.device, e.platform)]

def platformKey (e : WatchEvent) : List String := [e.platform]

/-! ### Shows: distinct episodes and completed seasons (spec 4.2) -/

/-- Episode events of one show. -/
def showEpisodeEvents (t : String) (evs : List WatchEvent) : List WatchEvent :=
  evs.filter (fun e => decide (e.mediaKind = MediaKind.episode) && e.showTitle == some t)

/-- Distinct episode rating keys of one show. -/
def distinctEpisodeCount (t : String) (evs : List WatchEvent) : Nat :=
  ((showEpisodeEvents t evs).map (fun e => e.ratingKey)).dedup.length

/-- Episode numbers seen for one season of one show. -/
def seenEpisodeNumbers (t : String) (season : Nat) (evs : List WatchEvent) : List Nat :=
  (((showEpisodeEvents t evs).filter (fun e => e.seasonNumber == some season)).filterMap
    (fun e => e.episodeNumber)).dedup

/-- Modelled from the spec (4.2): completion is an approximation from
watched data only — a season counts as completed when every episode number
from 1 up to the largest seen appears among the watched episodes. -/
def seasonCompleted (nums : List Nat) : Bool :=
  !nums.isEmpty && (List.range (nums.foldl max 0)).all (fun i => (i + 1) ∈ nums)

/-- Season numbers seen for one show. -/
def seenSeasons (t : String) (evs : List WatchEvent) : List Nat :=
  ((showEpisodeEvents t evs).filterMap (fun e => e.seasonNumber)).dedup

/-- Number of (approximately) completed seasons of one show. -/
def seasonsCompletedCount (t : String) (evs : List WatchEvent) : Nat :=
  (seenSeasons t evs).countP (fun s => seasonCompleted (seenEpisodeNumbers t s evs))

/-! ### Temporal pattern detection (spec 4.3) -/

/-- Distinct active days (absolute day numbers), in first-appearance order
of the canonical (chronological) list. -/
def activeDays (evs : List WatchEvent) : List Nat :=
  (evs.map (fun e => absDay e.startedAt)).dedup

/-- Longest run of consecutive calendar days, over the ascending list of
distinct active days.  Only the length is reported, so the documented
tie-break among equally long runs does not affect the output. -/
def streakGo : List Nat → Nat → Nat → Nat → Nat
  | [], _, _, best => best
  | d :: rest, prev, run, best =>
      let run2 := if d = prev + 1 then run + 1 else 1
      streakGo rest d run2 (max best run2)

def longestStreak (evs : List WatchEvent) : Nat :=
  match List.insertionSort (fun a b => a ≤ b) (activeDays evs) with
  | [] => 0
  | d :: rest => streakGo rest d 1 1

/-- Modelled from the spec (4.3): maximal runs of chronologically ordered
events in which each start is at most the gap threshold after the previous
start. -/
def bingeSessions (gap : Nat) : List WatchEvent → List (List WatchEvent)
  | [] => []
  | e :: rest =>
      let step := fun (acc : (WatchEvent × List WatchEvent) × List (List WatchEvent)) e2 =>
        let ((last, cur), done) := acc
        if absMinutes e2.startedAt ≤ absMinutes last.startedAt + gap then
          ((e2, last :: cur), done)
        else ((e2, []), done ++ [(last :: cur).reverse])
      let ((last, cur), done) := rest.foldl step ((e, []), [])
      done ++ [(last :: cur).reverse]

def sessionMinutes (session : List WatchEvent) : Int :=
  session.foldl (fun a e => a + e.durationWatchedMinutes) 0

/-- The show with the most minutes within one session (movies set no show);
the first-appearing show wins ties. -/
def sessionTopShow (session : List WatchEvent) : Option String :=
  ((groupBy showKey session).foldl (fun best p =>
    match best with
    | none => some p
    | some b => if b.2.minutes < p.2.minutes then some p else some b) none).map
      (fun p => p.1)

/-- The longest binge session: its minutes and its dominant show.  The
first session wins ties (documented choice). -/
def longestBinge (gap : Nat) (evs : List WatchEvent) : Int × Option String :=
  (bingeSessions gap evs).foldl (fun best session =>
    let m := sessionMinutes session
    if best.1 < m then (m, sessionTopShow session) else best) (0, none)

/-- The calendar day with the most minutes; the earliest such day wins ties. -/
def mostMemorableDay (evs : List WatchEvent) : Option (Nat × Int) :=
  (groupBy (fun e => [absDay e.startedAt]) evs).foldl (fun best p =>
    match best with
    | none => some (p.1, p.2.minutes)
    | some (bd, bm) =>
        if bm < p.2.minutes ∨ (bm = p.2.minutes ∧ p.1 < bd) then some (p.1, p.2.minutes)
        else some (bd, bm)) none

/-- Argmax over a bucket's minutes sums with ties broken by the earliest
key in calendar order (spec 4.3). -/
def argmaxCalendar (groups : List (Nat × GroupAcc)) : Option Nat :=
  (groups.foldl (fun best p =>
    match best with
    | none => some p
    | some (bk, ba) =>
        if ba.minutes < p.2.minutes ∨ (ba.minutes = p.2.minutes ∧ p.1 < bk) then some p
        else some (bk, ba)) none).map (fun p => p.1)

def mostActiveMonth (evs : List WatchEvent) : Option Nat :=
  argmaxCalendar (groupBy (fun e => [e.startedAt.month]) evs)

def mostActiveDayOfWeek (evs : List WatchEvent) : Option Nat :=
  argmaxCalendar (groupBy (fun e => [dayOfWeek e.startedAt]) evs)

def mostActiveHour (evs : List WatchEvent) : Option Nat :=
  argmaxCalendar (groupBy (fun e => [e.startedAt.hour]) evs)

/-- The chronologically earliest qualifying event; exact-timestamp ties
prefer the larger rating key (spec 4.3). -/
def firstWatch (evs : List WatchEvent) : Option WatchEvent :=
  evs.foldl (fun best e =>
    match best with
    | none => some e
    | some b =>
        if absMinutes e.startedAt < absMinutes b.startedAt ∨
            (absMinutes e.startedAt = absMinutes b.startedAt ∧ b.ratingKey < e.ratingKey) then
          some e
        else some b) none

/-- The chronologically latest qualifying event; exact-timestamp ties
prefer the larger rating key (spec 4.3). -/
def lastWatch (evs : List WatchEvent) : Option WatchEvent :=
  evs.foldl (fun best e =>
    match best with
    | none => some e
    | some b =>
        if absMinutes b.startedAt < absMinutes e.startedAt ∨
            (absMinutes e.startedAt = absMinutes b.startedAt ∧ b.ratingKey < e.ratingKey) then
          some e
        else some b) none

/-! ### Derived facts and quality rollups (spec 4.4) -/

def totalMinutes (evs : List WatchEvent) : Int :=
  evs.foldl (fun a e => a + e.durationWatchedMinutes) 0

def decisionMinutes (d : PlayDecision) (evs : List WatchEvent) : Int :=
  totalMinutes (evs.filter (fun e => decide (e.playDecision = d)))

/-- Percentage of total minutes for one play-decision bucket, independently
rounded to the nearest integer (spec 4.4: no forced rebalancing to 100). -/
def decisionPct (d : PlayDecision) (evs : List WatchEvent) : ℤ :=
  round (((decisionMinutes d evs : ℚ) * 100) / (totalMinutes evs : ℚ))

/-- Modelled from the spec (4.4): library percentage is unavailable (`none`)
when the supplementary source supplies no library size; otherwise unique
titles over library size, clamped to [0,100] per the validation of 4.5. -/
def libraryPercentage (supp : Option SupplementaryMetadata) (uniqueTitles : Nat) : Option ℚ :=
  match supp with
  | none => none
  | some s =>
      let size := s.libraryMovieCount + s.libraryShowCount
      if size = 0 then none
      else some (min 100 (max 0 ((100 * (uniqueTitles : ℚ)) / (size : ℚ))))

/-! ### Output assembly (spec sections 3 and 4.5) -/

structure TopMovie where
  ratingKey : Nat
  title : String
  releaseYear : Option Nat
  plays : Nat
  minutes : Int
deriving DecidableEq, Repr

structure TopShow where
  title : String
  plays : Nat
  minutes : Int
  episodes : Nat
  seasonsCompleted : Nat
deriving DecidableEq, Repr

structure TopEpisode where
  ratingKey : Nat
  title : String
  showName : Option String
  season : Option Nat
  episode : Option Nat
  plays : Nat
  minutes : Int
deriving DecidableEq, Repr

structure TopTag where
  name : String
  plays : Nat
  minutes : Int
deriving DecidableEq, Repr

structure TopDevice where
  device : String
  platform : String
  plays : Nat
  minutes : Int
deriving DecidableEq, Repr

structure MonthStat where
  month : Nat
  plays : Nat
  minutes : Int
deriving DecidableEq, Repr

/-- Modelled from the spec (3): the `UserYearStats` output value, without
the qualitative fun facts and badges (which are computed from these core
numbers by the rule table of 4.4). -/
structure CoreStats where
  totalWatchTimeMinutes : Int
  totalPlays : Nat
  totalMovies : Nat
  totalTvEpisodes : Nat
  uniqueMovies : Nat
  uniqueShows : Nat
  daysActive : Nat
  malformedSkipped : Nat
  topMovies : List TopMovie
  topShows : List TopShow
  topEpisodes : List TopEpisode
  topGenres : List TopTag
  topActors : List TopTag
  topDirectors : List TopTag
  topDevices : List TopDevice
  topPlatforms : List TopTag
  monthlyStats : List MonthStat
  mostActiveMonth : Option Nat
  mostActiveDayOfWeek : Option Nat
  mostActiveHour : Option Nat
  longestStreakDays : Nat
  longestBingeMinutes : Int
  longestBingeShow : Option String
  mostMemorableDay : Option (Nat × Int)
  firstWatch : Option (String × Timestamp)
  lastWatch : Option (String × Timestamp)
  percentDaysActive : ℚ
  rewatches : Nat
  totalSeasonsCompleted : Nat
  qualityDirectPlayPct : ℤ
  qualityDirectStreamPct : ℤ
  qualityTranscodePct : ℤ
  percentageOfLibraryWatched : Option ℚ
deriving DecidableEq, Repr

/-- Modelled from the spec (3): the full `UserYearStats` output. -/
structure UserYearStats extends CoreStats where
  funFacts : List String
  badges : List String
deriving DecidableEq, Repr

/-- Modelled from the spec (4.4): the fixed, ordered badge/fun-fact rule
table — each rule fires with one fact string or does not; no rule fires on
all-zero stats. -/
def funFactRules : List (CoreStats → Option String) :=
  [ fun c =>
      match c.topShows.head? with
      | some s => if 20 < s.episodes then some ("binge-watcher:" ++ s.title) else none
      | none => none,
    fun c =>
      if 0 < c.totalPlays ∧ 50 ≤ c.qualityDirectPlayPct then some "direct-play-devotee"
      else none,
    fun c =>
      match c.mostActiveDayOfWeek with
      | some d => some ("creature-of-habit:" ++ toString d)
      | none => none,
    fun c => if 7 ≤ c.longestStreakDays then some "streak-master" else none,
    fun c =>
      match c.mostActiveHour with
      | some h => if 22 ≤ h ∨ h ≤ 4 then some "night-owl" else none
      | none => none,
    fun c => if 240 ≤ c.longestBingeMinutes then some "marathon-master" else none,
    fun c => if 1 ≤ c.totalSeasonsCompleted then some "completionist" else none,
    fun c => if 1 ≤ c.rewatches then some "rewatcher" else none ]

/-- Modelled from the spec (4.4): the badge rule table (badge identifiers). -/
def badgeRules : List (CoreStats → Option String) :=
  [ fun c => if 10000 ≤ c.totalWatchTimeMinutes then some "heavy-hitter" else none,
    fun c => if 100 ≤ c.daysActive then some "regular" else none,
    fun c => if 1 ≤ c.totalSeasonsCompleted then some "completionist" else none ]

/-- Evaluates an ordered rule table in priority order, skipping non-firing
rules and truncating at the cap (spec 4.4). -/
def evalRules (cap : Nat) (rules : List (CoreStats → Option String)) (c : CoreStats) :
    List String :=
  (rules.filterMap (fun r => r c)).take cap

/-- Assembles the core statistics of one user-year from the canonical
event list (spec 4.5). -/
def assembleCore (cfg : EngineConfig) (year : Nat) (supp : Option SupplementaryMetadata)
    (evs : List WatchEvent) : CoreStats :=
  let movieGroups := groupBy movieKey evs
  let showGroups := groupBy showKey evs
  let uniqueMovies := movieGroups.length
  let uniqueShows := showGroups.length
  let binge := longestBinge cfg.bingeGapMinutes evs
  { totalWatchTimeMinutes := totalMinutes evs
    totalPlays := evs.length
    totalMovies := evs.countP (fun e => decide (e.mediaKind = MediaKind.movie))
    totalTvEpisodes := evs.countP (fun e => decide (e.mediaKind = MediaKind.episode))
    uniqueMovies := uniqueMovies
    uniqueShows := uniqueShows
    daysActive := (activeDays evs).length
    malformedSkipped := 0
    topMovies := (topGroups cfg.topListCap movieKey evs).map (fun p =>
      { ratingKey := p.1.1, title := p.1.2.1, releaseYear := p.1.2.2,
        plays := p.2.plays, minutes := p.2.minutes })
    topShows := (topGroups cfg.topListCap showKey evs).map (fun p =>
      { title := p.1, plays := p.2.plays, minutes := p.2.minutes,
        episodes := distinctEpisodeCount p.1 evs,
        seasonsCompleted := seasonsCompletedCount p.1 evs })
    topEpisodes := (topGroups cfg.topListCap episodeKey evs).map (fun p =>
      { ratingKey := p.1.1, title := p.1.2.1, showName := p.1.2.2.1,
        season := p.1.2.2.2.1, episode := p.1.2.2.2.2,
        plays := p.2.plays, minutes := p.2.minutes })
    topGenres := (topGroups cfg.tagListCap genreKeys evs).map (fun p =>
      { name := p.1, plays := p.2.plays, minutes := p.2.minutes })
    topActors := (topGroups cfg.tagListCap actorKeys evs).map (fun p =>
      { name := p.1, plays := p.2.plays, minutes := p.2.minutes })
    topDirectors := (topGroups cfg.tagListCap directorKeys evs).map (fun p =>
      { name := p.1, plays := p.2.plays, minutes := p.2.minutes })
    topDevices := (topGroups cfg.topListCap deviceKey evs).map (fun p =>
      { device := p.1.1, platform := p.1.2, plays := p.2.plays, minutes := p.2.minutes })
    topPlatforms := (topGroups cfg.topListCap platformKey evs).map (fun p =>
      { name := p.1, plays := p.2.plays, minutes := p.2.minutes })
    monthlyStats := (groupBy (fun e => [e.startedAt.month]) evs).map (fun p =>
      { month := p.1, plays := p.2.plays, minutes := p.2.minutes })
    mostActiveMonth := mostActiveMonth evs
    mostActiveDayOfWeek := mostActiveDayOfWeek evs
    mostActiveHour := mostActiveHour evs
    longestStreakDays := longestStreak evs
    longestBingeMinutes := binge.1
    longestBingeShow := binge.2
    mostMemorableDay := mostMemorableDay evs
    firstWatch := (firstWatch evs).map (fun e => (e.title, e.startedAt))
    lastWatch := (lastWatch evs).map (fun e => (e.title, e.startedAt))
    percentDaysActive :=
      min 100 (max 0 ((100 * ((activeDays evs).length : ℚ)) / (daysInYear year : ℚ)))
    rewatches := movieGroups.countP (fun p => 2 ≤ p.2.plays)
    totalSeasonsCompleted :=
      (showGroups.map (fun p => seasonsCompletedCount p.1 evs)).foldl (· + ·) 0
    qualityDirectPlayPct := decisionPct PlayDecision.directPlay evs
    qualityDirectStreamPct := decisionPct PlayDecision.directStream evs
    qualityTranscodePct := decisionPct PlayDecision.transcode evs
    percentageOfLibraryWatched := libraryPercentage supp (uniqueMovies + uniqueShows) }

/-- Modelled from the spec: the engine entry point
`StatsCalculator.calculateUserStats` — a pure function from the fetched
event list (arbitrary order) to one `UserYearStats`.  The count of
skipped-malformed events (spec 7: events with a negative duration) is
surfaced alongside the aggregates. -/
def calculateUserStats (cfg : EngineConfig) (year : Nat)
    (supp : Option SupplementaryMetadata) (events : List WatchEvent) : UserYearStats :=
  let core := assembleCore cfg year supp (canonicalize year events)
  let core := { core with
    malformedSkipped := events.countP (fun (e : WatchEvent) => decide (e.durationWatchedMinutes < 0)) }
  { core with
    funFacts := evalRules cfg.funFactCap funFactRules core
    badges := evalRules cfg.funFactCap badgeRules core }

end StatsCalculator

/-! ## Generation orchestrator and e-mail endpoints,
`backend/src/routes/admin.routes.ts`

The route handlers are in the source tree; the thin CRUD model layer they
call (`models/WrappedGeneration.ts`, `models/UserWrappedStats.ts`,
`models/AccessToken.ts`, `models/EmailLog.ts`) is not, and is modelled from
the spec (section 1: "ordinary create/read/update over a relational
store") together with the schema's constraints. -/

namespace Orchestrator

/-- A row of `wrapped_generations` (the columns the orchestrator touches). -/
structure GenerationRec where
  id : Nat
  year : Nat
  status : String
  totalUsers : Nat
  processedUsers : Nat
  successfulUsers : Nat
  failedUsers : Nat
  errorLog : Option String
deriving DecidableEq, Repr

/-- A row of `user_wrapped_stats` (the columns the orchestrator touches). -/
structure StatsRow where
  id : Nat
  userId : Nat
  generationId : Option Nat
  year : Nat
  stats : StatsCalculator.UserYearStats
  processingTimeSeconds : Nat
deriving DecidableEq, Repr

/-- A row of `access_tokens` (the columns the orchestrator touches). -/
structure TokenRow where
  id : Nat
  statsId : Nat
  userId : Nat
  year : Nat
  createdBy : String
deriving DecidableEq, Repr

/-- A row of `email_logs` (the columns the e-mail sender touches). -/
structure EmailLogRow where
  id : Nat
  userId : Option Nat
  generationId : Option Nat
  emailTo : String
  emailSubject : String
  status : String
deriving DecidableEq, Repr

/-- A row of `users` (the columns the routes touch). -/
structure UserRec where
  id : Nat
  plexUserId : Nat
  username : String
  email : Option String
  preferredLanguage : Option String
deriving DecidableEq, Repr

/-- The persisted store, embedded as in-memory tables with fresh-id
counters. -/
structure Db where
  users : List UserRec
  generations : List GenerationRec
  statsRows : List StatsRow
  tokens : List TokenRow
  emailLogs : List EmailLogRow
  nextGenerationId : Nat
  nextStatsId : Nat
  nextTokenId : Nat
  nextEmailLogId : Nat
deriving DecidableEq, Repr

/-- Modelled from the spec: `WrappedGenerationModel.findById` — row lookup
by primary key. -/
def getGeneration (generationId : Nat) (db : Db) : Option GenerationRec :=
  db.generations.find? (fun g => g.id == generationId)

/-- Modelled from the spec: `WrappedGenerationModel.create` — inserts a
generation row; `status` takes the schema default `'pending'` and the
counters the schema default `0`. -/
def generationCreate (year : Nat) (db : Db) : Db × GenerationRec :=
  let g : GenerationRec :=
    { id := db.nextGenerationId, year := year, status := "pending",
      totalUsers := 0, processedUsers := 0, successfulUsers := 0, failedUsers := 0,
      errorLog := none }
  ({ db with generations := db.generations ++ [g],
             nextGenerationId := db.nextGenerationId + 1 }, g)

/-- Modelled from the spec: `WrappedGenerationModel.update` — patches the
row with the given id. -/
def updateGeneration (generationId : Nat) (f : GenerationRec → GenerationRec) (db : Db) : Db :=
  { db with generations := db.generations.map (fun g => if g.id == generationId then f g else g) }

/-- Modelled from the spec: `WrappedGenerationModel.incrementProcessed` —
bumps `processed_users` and one of `successful_users`/`failed_users`. -/
def incrementProcessed (generationId : Nat) (success : Bool) (db : Db) : Db :=
  updateGeneration generationId (fun g =>
    { g with processedUsers := g.processedUsers + 1,
             successfulUsers := g.successfulUsers + (if success then 1 else 0),
             failedUsers := g.failedUsers + (if success then 0 else 1) }) db

/-- Modelled from the spec: `UserWrappedStatsModel.create` — inserts a
stats row, or fails with the store's uniqueness violation when a row for
the same `(user_id, year)` already exists (schema: `UNIQUE(user_id, year)`
on `user_wrapped_stats`). -/
def statsCreate (userId : Nat) (generationId : Option Nat) (year : Nat)
    (stats : StatsCalculator.UserYearStats) (processingTimeSeconds : Nat) (db : Db) :
    Except String (Db × StatsRow) :=
  if db.statsRows.any (fun r => r.userId == userId && r.year == year) then
    Except.error "duplicate key value violates unique constraint user_wrapped_stats_user_id_year_key"
  else
    let row : StatsRow :=
      { id := db.nextStatsId, userId := userId, generationId := generationId,
        year := year, stats := stats, processingTimeSeconds := processingTimeSeconds }
    Except.ok ({ db with statsRows := db.statsRows ++ [row],
                         nextStatsId := db.nextStatsId + 1 }, row)

/-- Modelled from the spec: `AccessTokenModel.create` — inserts a token row
for one stats row. -/
def tokenCreate (statsId userId year : Nat) (createdBy : String) (db : Db) : Db × TokenRow :=
  let row : TokenRow :=
    { id := db.nextTokenId, statsId := statsId, userId := userId, year := year,
      createdBy := createdBy }
  ({ db with tokens := db.tokens ++ [row], nextTokenId := db.nextTokenId + 1 }, row)

/-- Modelled from the spec: `EmailLogModel.create` — inserts an e-mail log
row with schema-default status `'pending'`. -/
def emailLogCreate (userId : Option Nat) (generationId : Option Nat)
    (emailTo emailSubject : String) (db : Db) : Db × EmailLogRow :=
  let row : EmailLogRow :=
    { id := db.nextEmailLogId, userId := userId, generationId := generationId,
      emailTo := emailTo, emailSubject := emailSubject, status := "pending" }
  ({ db with emailLogs := db.emailLogs ++ [row],
             nextEmailLogId := db.nextEmailLogId + 1 }, row)

/-- Modelled from the spec: `EmailLogModel.markSent` — sets the row's
status to `'sent'`. -/
def emailLogMarkSent (logId : Nat) (db : Db) : Db :=
  { db with emailLogs := db.emailLogs.map (fun l =>
      if l.id == logId then { l with status := "sent" } else l) }

/-- Modelled from the spec: `UserModel.findById`. -/
def findUser (userId : Nat) (db : Db) : Option UserRec :=
  db.users.find? (fun u => u.id == userId)

/-- Modelled from the spec: `AccessTokenModel.findByWrappedStatsId`. -/
def findTokenByStatsId (statsId : Nat) (db : Db) : Option TokenRow :=
  db.tokens.find? (fun t => t.statsId == statsId)

/-- The per-user try/catch body of `generateWrappedStats`: calculate the
user's stats, persist them, create an access token, and record a success;
any failure (of the calculator or of the stats insert) records that one
user as failed and the loop continues.  The calculator is passed as a
function of the Plex user id, standing for
`calculator.calculateUserStats(user.plex_user_id, year)` with its fetch of
history data (which is what can fail). -/
def processUser (calcStats : Nat → Except String StatsCalculator.UserYearStats)
    (generationId year : Nat) (acc : Db × Nat × Nat) (user : UserRec) : Db × Nat × Nat :=
  let (db, successful, failed) := acc
  match calcStats user.plexUserId with
  | Except.error _ => (incrementProcessed generationId false db, successful, failed + 1)
  | Except.ok stats =>
      match statsCreate user.id (some generationId) year stats 0 db with
      | Except.error _ => (incrementProcessed generationId false db, successful, failed + 1)
      | Except.ok (db1, row) =>
          let db2 := (tokenCreate row.id user.id year "generation" db1).1
          (incrementProcessed generationId true db2, successful + 1, failed)

/-- Source: the background job `generateWrappedStats(generationId, year,
userIds?)`.  `fetchUsers` stands for the awaited user lookup
(`UserModel.findAll()` or the `userIds` lookups, filtered of nulls), whose
rejection is what sends the outer catch to the `'failed'` update.  Returns
the final store together with the list of status values written to the
generation row, in order. -/
def generateWrappedStats (calcStats : Nat → Except String StatsCalculator.UserYearStats)
    (fetchUsers : Except String (List UserRec)) (generationId year : Nat) (db : Db) :
    Db × List String :=
  let db1 := updateGeneration generationId (fun g => { g with status := "processing" }) db
  match fetchUsers with
  | Except.error msg =>
      (updateGeneration generationId
        (fun g => { g with status := "failed", errorLog := some msg }) db1,
       ["processing", "failed"])
  | Except.ok users =>
      let db2 := updateGeneration generationId (fun g => { g with totalUsers := users.length }) db1
      let step := users.foldl (processUser calcStats generationId year) (db2, 0, 0)
      (updateGeneration generationId
        (fun g => { g with status := "completed", successfulUsers := step.2.1,
                           failedUsers := step.2.2 }) step.1,
       ["processing", "completed"])

/-- Source: the `POST /api/admin/generate` handler — creates the generation
record (schema-default status `'pending'`) and starts the background job.
Returns the final store, the generation id, and the sequence of status
values the record takes on, starting with the inserted default. -/
def postGenerate (calcStats : Nat → Except String StatsCalculator.UserYearStats)
    (fetchUsers : Except String (List UserRec)) (year : Nat) (db : Db) :
    Db × Nat × List String :=
  let (db1, gen) := generationCreate year db
  let (db2, trace) := generateWrappedStats calcStats fetchUsers gen.id year db1
  (db2, gen.id, gen.status :: trace)

/-! ### The batch e-mail endpoint, `POST /api/admin/emails/send` -/

/-- The request body `{ generationId, userIds, testMode }`. -/
structure EmailsSendRequest where
  generationId : Option Nat
  userIds : Option (List Nat)
  testMode : Option Bool
deriving DecidableEq, Repr

/-- The JSON response of the endpoint (the dynamic message text is not
modelled). -/
structure EmailsSendResponse where
  success : Bool
  message : String
  testModeFlag : Option Bool
  count : Option Nat
  errorStatus : Option Nat
deriving DecidableEq, Repr

/-- An e-mail handed to the SMTP transport. -/
structure EmailMessage where
  recipient : String
  emailSubject : String
  url : String
deriving DecidableEq, Repr

/-- Source: `const isTestMode = testMode !== undefined ? testMode :
process.env.TEST_MODE === 'true'`. -/
def isTestMode (req : EmailsSendRequest) (envTestMode : String) : Bool :=
  match req.testMode with
  | some b => b
  | none => envTestMode == "true"

/-- The e-mail subject.  The translation tables live outside the source
tree, so the subject is embedded as the i18n key (exactly what
`i18n.t('email.subject', …)` returns when no table is loaded). -/
def emailSubject (locale : String) (year : Nat) : String :=
  I18n.translate [] "email.subject" locale (some [("year", toString year)])

/-- Source: the background job `sendEmails(statsList, generationId)`: for
each stats row, look up the user (skipping users without an e-mail
address), look up the token (skipping rows without one), create a pending
e-mail log, send, and mark the log sent; a failed send leaves the log
pending and the loop continues.  `smtp` stands for the transporter,
returning whether the send succeeded. -/
def sendEmails (smtp : EmailMessage → Bool) (appUrl : String)
    (statsList : List StatsRow) (generationId : Nat) (db : Db) : Db × List EmailMessage :=
  statsList.foldl (fun (acc : Db × List EmailMessage) row =>
    let (db0, sent) := acc
    match findUser row.userId db0 with
    | none => (db0, sent)
    | some u =>
        match u.email with
        | none => (db0, sent)
        | some em =>
            if em = "" then (db0, sent)
            else
              match findTokenByStatsId row.id db0 with
              | none => (db0, sent)
              | some tok =>
                  let locale := u.preferredLanguage.getD "en"
                  let msg : EmailMessage :=
                    { recipient := em, emailSubject := emailSubject locale row.year,
                      url := appUrl ++ "/wrapped/" ++ toString tok.id ++ "?lang=" ++ locale }
                  let (db1, log) := emailLogCreate (some row.userId) (some generationId)
                    em msg.emailSubject db0
                  if smtp msg then (emailLogMarkSent log.id db1, sent ++ [msg])
                  else (db1, sent)) (db, [])

/-- The endpoint's response in the test-mode branch. -/
def testModeResponse : EmailsSendResponse :=
  { success := true, message := "TEST_MODE enabled - no emails sent",
    testModeFlag := some true, count := none, errorStatus := none }

/-- Source: the `POST /api/admin/emails/send` handler.  In test mode it
returns at once, before any store access; otherwise it loads the
generation (404 when absent), filters its stats rows by the optional user
ids, and runs the send job.  Returns the response, the final store, and
the e-mails handed to SMTP. -/
def emailsSendEndpoint (smtp : EmailMessage → Bool) (envTestMode appUrl : String)
    (req : EmailsSendRequest) (db : Db) : EmailsSendResponse × Db × List EmailMessage :=
  if isTestMode req envTestMode then (testModeResponse, db, [])
  else
    match req.generationId.bind (fun gid => getGeneration gid db) with
    | none =>
        ({ success := false, message := "Generation not found", testModeFlag := none,
           count := none, errorStatus := some 404 }, db, [])
    | some gen =>
        let statsList := db.statsRows.filter (fun r => r.generationId == some gen.id)
        let statsList :=
          match req.userIds with
          | some ids => if ids.isEmpty then statsList else statsList.filter (fun s => s.userId ∈ ids)
          | none => statsList
        let (db1, sent) := sendEmails smtp appUrl statsList gen.id db
        ({ success := true, message := "Started sending emails", testModeFlag := none,
           count := some statsList.length, errorStatus := none }, db1, sent)

end Orchestrator

/-! ## Theorems -/

theorem hasTable_false_tablesGet {tables : List (String × I18n.JsonValue)} {locale : String}
    (h : I18n.hasTable tables locale = false) : I18n.tablesGet tables locale = none := by
  unfold I18n.hasTable at h
  unfold I18n.tablesGet
  rw [List.find?_eq_none.mpr]
  · rfl
  · intro p hp hpl
    have := List.any_eq_false.mp h p hp
    simp_all

theorem orElse_self (x : Option I18n.JsonValue) : (x.orElse (fun _ => x)) = x := by
  cases x <;> rfl

/-- C8: for every translation key, locale and parameter map, `translate`
totally returns a string — the interpolated resolved string when the
dot-separated key path resolves to a string through the effective table
(the requested locale's table, or the default locale's table when the
requested one is not loaded), and the key itself otherwise; it never
throws. -/
theorem translate_total_fallback_key (tables : List (String × I18n.JsonValue))
    (key locale : String) (params : Option (List (String × String))) :
    (I18n.translate tables key locale params =
      match I18n.resolvedString tables locale key, params with
      | some s, some ps => I18n.interpolate s ps
      | some s, none => s
      | none, _ => key)
  ∧ (I18n.hasTable tables locale = false →
      I18n.translate tables key locale params = I18n.translate tables key I18n.defaultLocale params)
  ∧ (I18n.resolvedString tables locale key = none →
      I18n.translate tables key locale params = key) := by
  have hchar : I18n.translate tables key locale params =
      match I18n.resolvedString tables locale key, params with
      | some s, some ps => I18n.interpolate s ps
      | some s, none => s
      | none, _ => key := by
    unfold I18n.translate I18n.resolvedString
    cases het : I18n.effectiveTable tables locale with
    | none => simp
    | some t =>
        cases hrp : I18n.resolvePath t (I18n.splitDot key) with
        | none => simp [hrp]
        | some v => cases v <;> cases params <;> simp [hrp]
  refine ⟨hchar, ?_, ?_⟩
  · intro hno
    have hget := hasTable_false_tablesGet hno
    have heq : I18n.effectiveTable tables locale = I18n.effectiveTable tables I18n.defaultLocale := by
      unfold I18n.effectiveTable
      rw [hget]
      cases I18n.tablesGet tables I18n.defaultLocale <;> rfl
    unfold I18n.translate
    rw [heq]
  · intro hres
    rw [hchar, hres]

/-- C8 witness: with only an English table loaded, a request for the
unloaded locale `fr` falls back to the default table, and an unresolvable
key is returned unchanged. -/
theorem translate_total_fallback_key_witness :
    (I18n.hasTable [("en", I18n.JsonValue.obj [("a", I18n.JsonValue.str "hello")])] "fr" = false
      ∧ I18n.resolvedString [("en", I18n.JsonValue.obj [("a", I18n.JsonValue.str "hello")])]
          "fr" "missing" = none)
  ∧ (I18n.translate [("en", I18n.JsonValue.obj [("a", I18n.JsonValue.str "hello")])]
        "missing" "fr" none =
      I18n.translate [("en", I18n.JsonValue.obj [("a", I18n.JsonValue.str "hello")])]
        "missing" "en" none
    ∧ I18n.translate [("en", I18n.JsonValue.obj [("a", I18n.JsonValue.str "hello")])]
        "missing" "fr" none = "missing") :=
  ⟨⟨rfl, rfl⟩,
   (translate_total_fallback_key _ "missing" "fr" none).2.1 rfl,
   (translate_total_fallback_key _ "missing" "fr" none).2.2 rfl⟩

theorem getLocaleFromURL_mem {lp : Option String} {x : String}
    (h : FrontendLocale.getLocaleFromURL lp = some x) : x ∈ FrontendLocale.locales := by
  unfold FrontendLocale.getLocaleFromURL at h
  cases lp with
  | none => simp at h
  | some l =>
      by_cases hl : l ∈ FrontendLocale.locales <;> simp [hl] at h
      exact h ▸ hl

theorem getLocaleFromStorage_mem {env : FrontendLocale.BrowserEnv} {x : String}
    (h : FrontendLocale.getLocaleFromStorage env = some x) : x ∈ FrontendLocale.locales := by
  unfold FrontendLocale.getLocaleFromStorage at h
  by_cases hw : env.windowDefined = false
  · simp [hw] at h
  · simp only [hw, if_false] at h
    cases hs : env.stored with
    | none => simp [hs] at h
    | some s =>
        rw [hs] at h
        by_cases hl : s ∈ FrontendLocale.locales <;> simp [hl] at h
        exact h ▸ hl

theorem getLocaleFromBrowser_mem (env : FrontendLocale.BrowserEnv) :
    FrontendLocale.getLocaleFromBrowser env ∈ FrontendLocale.locales := by
  unfold FrontendLocale.getLocaleFromBrowser
  by_cases hw : env.windowDefined = false
  · simp only [hw, if_true]
    decide
  · simp only [hw, if_false]
    by_cases hl : FrontendLocale.headSplitDash env.navigatorLanguage ∈ FrontendLocale.locales
    · simp [hl]
    · simp only [hl, if_false]
      decide

/-- C9: `determineLocale` always returns a supported locale, with strict
precedence URL parameter over stored preference over browser language over
the default, and a value from any source that is not supported is ignored
rather than returned. -/
theorem determineLocale_precedence (langParam : Option String)
    (env : FrontendLocale.BrowserEnv) :
    FrontendLocale.determineLocale langParam env ∈ FrontendLocale.locales
  ∧ (∀ l, langParam = some l → l ∈ FrontendLocale.locales →
      FrontendLocale.determineLocale langParam env = l)
  ∧ (FrontendLocale.getLocaleFromURL langParam = none →
      ∀ s, env.windowDefined = true → env.stored = some s → s ∈ FrontendLocale.locales →
        FrontendLocale.determineLocale langParam env = s)
  ∧ (FrontendLocale.getLocaleFromURL langParam = none →
      FrontendLocale.getLocaleFromStorage env = none →
        FrontendLocale.determineLocale langParam env = FrontendLocale.getLocaleFromBrowser env)
  ∧ (∀ l, langParam = some l → l ∉ FrontendLocale.locales →
      FrontendLocale.determineLocale langParam env = FrontendLocale.determineLocale none env) := by
  refine ⟨?_, ?_, ?_, ?_, ?_⟩
  · unfold FrontendLocale.determineLocale
    cases hu : FrontendLocale.getLocaleFromURL langParam with
    | some x => simpa [Option.orElse] using getLocaleFromURL_mem hu
    | none =>
        cases hs : FrontendLocale.getLocaleFromStorage env with
        | some x => simpa [Option.orElse] using getLocaleFromStorage_mem hs
        | none => simpa [Option.orElse] using getLocaleFromBrowser_mem env
  · intro l hl hmem
    subst hl
    unfold FrontendLocale.determineLocale FrontendLocale.getLocaleFromURL
    simp [hmem, Option.orElse]
  · intro hu s hw hs hmem
    unfold FrontendLocale.determineLocale
    rw [hu]
    unfold FrontendLocale.getLocaleFromStorage
    simp [hw, hs, hmem, Option.orElse]
  · intro hu hs
    unfold FrontendLocale.determineLocale
    rw [hu, hs]
    rfl
  · intro l hl hmem
    subst hl
    unfold FrontendLocale.determineLocale FrontendLocale.getLocaleFromURL
    simp [hmem, Option.orElse]

/-- C9 witness: an unsupported URL value `xx` is ignored in favour of the
stored preference `sl`; a supported URL value `de` wins over it. -/
theorem determineLocale_precedence_witness :
    (FrontendLocale.determineLocale (some "de")
        { windowDefined := true, stored := some "sl", navigatorLanguage := "fr-FR" } = "de")
  ∧ (FrontendLocale.getLocaleFromURL (some "xx") = none
      ∧ FrontendLocale.determineLocale (some "xx")
          { windowDefined := true, stored := some "sl", navigatorLanguage := "fr-FR" } = "sl") :=
  ⟨(determineLocale_precedence (some "de")
      { windowDefined := true, stored := some "sl", navigatorLanguage := "fr-FR" }).2.1
      "de" rfl (by decide),
   by decide,
   (determineLocale_precedence (some "xx")
      { windowDefined := true, stored := some "sl", navigatorLanguage := "fr-FR" }).2.2.1
      (by decide) "sl" rfl rfl (by decide)⟩

/-- C5: the fun-fact list presented on the wrapped page holds at most 6
entries, and equals the backend-provided facts followed by the fixed,
ordered rule table evaluated in priority order with non-firing rules
skipped, truncated to 6 — a pure function of the stats payload, so the
same input always yields the same list in the same order. -/
theorem wrappedPage_funFacts_bounded_ordered (s : WrappedPage.WrappedStatsView) :
    WrappedPage.displayedFunFacts s =
      ((s.funFacts.map WrappedPage.Fact.original) ++
        (WrappedPage.funFactRuleTable.filterMap (fun r => r s))).take 6
  ∧ (WrappedPage.displayedFunFacts s).length ≤ 6 := by
  constructor
  · unfold WrappedPage.displayedFunFacts
    congr 1
    unfold WrappedPage.generatedFacts WrappedPage.funFactRuleTable
    simp only [List.filterMap_cons, List.filterMap_nil]
    rcases hts : s.topShows.head? with _ | sh <;>
      rcases hqs : s.qualityStats with _ | q <;>
        rcases htd : s.topDevices.head? with _ | d <;>
          by_cases h1 : s.mostActiveDayOfWeek = "" <;>
            by_cases h4 : s.daysActive < 200 <;>
              simp_all <;> split_ifs <;> simp_all
  · unfold WrappedPage.displayedFunFacts
    simp [List.length_take]

/-- C2 counterexample: a stats row persisted without a library-size-derived
value stores the declared column default for
`percentage_of_library_watched` — the number 0, which is not an
"unavailable" sentinel distinguishable from 0%. -/
theorem percentage_persisted_default_is_zero :
    Schema.storedPercentageOfLibraryWatched none = Schema.PercentageColumnValue.num 0
  ∧ ¬ Schema.isUnavailableSentinel (Schema.storedPercentageOfLibraryWatched none) := by
  constructor
  · rfl
  · simp [Schema.storedPercentageOfLibraryWatched, Schema.percentageOfLibraryWatchedDefault,
      Schema.isUnavailableSentinel]

/-- C2 amended: when no library size is supplied, the engine-side computed
stats carry an explicit unavailable sentinel (`none`), but the persisted
store's `percentage_of_library_watched` column is numeric
(`DECIMAL(5,2) DEFAULT 0`, `CHECK` between 0 and 100), so a row persisted
without the value carries the number 0, SQL NULL being the only
representable non-numeric marker. -/
theorem percentage_engine_sentinel_store_zero :
    (∀ (cfg : StatsCalculator.EngineConfig) (year : Nat)
        (events : List StatsCalculator.WatchEvent),
      (StatsCalculator.calculateUserStats cfg year none events).percentageOfLibraryWatched = none)
  ∧ Schema.storedPercentageOfLibraryWatched none = Schema.PercentageColumnValue.num 0
  ∧ (∀ v, Schema.storedPercentageOfLibraryWatched (some v) = v) := by
  refine ⟨?_, rfl, fun v => rfl⟩
  intro cfg year events
  rfl

/-- C6: on the empty input event list the engine returns a valid, successful
`UserYearStats` — every counter zero, every ranked list empty, temporal
fields at their null sentinel, derived percentages zero or unavailable, and
no fun facts or badges firing — never an error (the function is total). -/
theorem engine_empty_input (cfg : StatsCalculator.EngineConfig) (year : Nat)
    (supp : Option StatsCalculator.SupplementaryMetadata) :
    (StatsCalculator.calculateUserStats cfg year supp []).totalWatchTimeMinutes = 0
  ∧ (StatsCalculator.calculateUserStats cfg year supp []).totalPlays = 0
  ∧ (StatsCalculator.calculateUserStats cfg year supp []).totalMovies = 0
  ∧ (StatsCalculator.calculateUserStats cfg year supp []).totalTvEpisodes = 0
  ∧ (StatsCalculator.calculateUserStats cfg year supp []).uniqueMovies = 0
  ∧ (StatsCalculator.calculateUserStats cfg year supp []).uniqueShows = 0
  ∧ (StatsCalculator.calculateUserStats cfg year supp []).daysActive = 0
  ∧ (StatsCalculator.calculateUserStats cfg year supp []).malformedSkipped = 0
  ∧ (StatsCalculator.calculateUserStats cfg year supp []).topMovies = []
  ∧ (StatsCalculator.calculateUserStats cfg year supp []).topShows = []
  ∧ (StatsCalculator.calculateUserStats cfg year supp []).topEpisodes = []
  ∧ (StatsCalculator.calculateUserStats cfg year supp []).topGenres = []
  ∧ (StatsCalculator.calculateUserStats cfg year supp []).topActors = []
  ∧ (StatsCalculator.calculateUserStats cfg year supp []).topDirectors = []
  ∧ (StatsCalculator.calculateUserStats cfg year supp []).topDevices = []
  ∧ (StatsCalculator.calculateUserStats cfg year supp []).topPlatforms = []
  ∧ (StatsCalculator.calculateUserStats cfg year supp []).monthlyStats = []
  ∧ (StatsCalculator.calculateUserStats cfg year supp []).mostActiveMonth = none
  ∧ (StatsCalculator.calculateUserStats cfg year supp []).mostActiveDayOfWeek = none
  ∧ (StatsCalculator.calculateUserStats cfg year supp []).mostActiveHour = none
  ∧ (StatsCalculator.calculateUserStats cfg year supp []).longestStreakDays = 0
  ∧ (StatsCalculator.calculateUserStats cfg year supp []).longestBingeMinutes = 0
  ∧ (StatsCalculator.calculateUserStats cfg year supp []).longestBingeShow = none
  ∧ (StatsCalculator.calculateUserStats cfg year supp []).mostMemorableDay = none
  ∧ (StatsCalculator.calculateUserStats cfg year supp []).firstWatch = none
  ∧ (StatsCalculator.calculateUserStats cfg year supp []).lastWatch = none
  ∧ (StatsCalculator.calculateUserStats cfg year supp []).percentDaysActive = 0
  ∧ (StatsCalculator.calculateUserStats cfg year supp []).rewatches = 0
  ∧ (StatsCalculator.calculateUserStats cfg year supp []).totalSeasonsCompleted = 0
  ∧ (StatsCalculator.calculateUserStats cfg year supp []).qualityDirectPlayPct = 0
  ∧ (StatsCalculator.calculateUserStats cfg year supp []).qualityDirectStreamPct = 0
  ∧ (StatsCalculator.calculateUserStats cfg year supp []).qualityTranscodePct = 0
  ∧ ((StatsCalculator.calculateUserStats cfg year supp []).percentageOfLibraryWatched = none
      ∨ (StatsCalculator.calculateUserStats cfg year supp []).percentageOfLibraryWatched = some 0)
  ∧ (StatsCalculator.calculateUserStats cfg year supp []).funFacts = []
  ∧ (StatsCalculator.calculateUserStats cfg year supp []).badges = [] := by
  refine ⟨rfl, rfl, rfl, rfl, rfl, rfl, rfl, rfl, ?_, ?_, ?_, ?_, ?_, ?_, ?_, ?_, rfl,
    rfl, rfl, rfl, rfl, rfl, rfl, rfl, rfl, rfl, ?_, rfl, rfl, ?_, ?_, ?_, ?_, ?_, ?_⟩
  · simp [StatsCalculator.calculateUserStats, StatsCalculator.assembleCore,
      StatsCalculator.topGroups, StatsCalculator.groupBy, StatsCalculator.canonicalize,
      StatsCalculator.dedupGo]
  · simp [StatsCalculator.calculateUserStats, StatsCalculator.assembleCore,
      StatsCalculator.topGroups, StatsCalculator.groupBy, StatsCalculator.canonicalize,
      StatsCalculator.dedupGo]
  · simp [StatsCalculator.calculateUserStats, StatsCalculator.assembleCore,
      StatsCalculator.topGroups, StatsCalculator.groupBy, StatsCalculator.canonicalize,
      StatsCalculator.dedupGo]
  · simp [StatsCalculator.calculateUserStats, StatsCalculator.assembleCore,
      StatsCalculator.topGroups, StatsCalculator.groupBy, StatsCalculator.canonicalize,
      StatsCalculator.dedupGo]
  · simp [StatsCalculator.calculateUserStats, StatsCalculator.assembleCore,
      StatsCalculator.topGroups, StatsCalculator.groupBy, StatsCalculator.canonicalize,
      StatsCalculator.dedupGo]
  · simp [StatsCalculator.calculateUserStats, StatsCalculator.assembleCore,
      StatsCalculator.topGroups, StatsCalculator.groupBy, StatsCalculator.canonicalize,
      StatsCalculator.dedupGo]
  · simp [StatsCalculator.calculateUserStats, StatsCalculator.assembleCore,
      StatsCalculator.topGroups, StatsCalculator.groupBy, StatsCalculator.canonicalize,
      StatsCalculator.dedupGo]
  · simp [StatsCalculator.calculateUserStats, StatsCalculator.assembleCore,
      StatsCalculator.topGroups, StatsCalculator.groupBy, StatsCalculator.canonicalize,
      StatsCalculator.dedupGo]
  · simp [StatsCalculator.calculateUserStats, StatsCalculator.assembleCore,
      StatsCalculator.activeDays, StatsCalculator.canonicalize, StatsCalculator.dedupGo]
  · simp [StatsCalculator.calculateUserStats, StatsCalculator.assembleCore,
      StatsCalculator.decisionPct, StatsCalculator.decisionMinutes, StatsCalculator.totalMinutes,
      StatsCalculator.canonicalize, StatsCalculator.dedupGo]
  · simp [StatsCalculator.calculateUserStats, StatsCalculator.assembleCore,
      StatsCalculator.decisionPct, StatsCalculator.decisionMinutes, StatsCalculator.totalMinutes,
      StatsCalculator.canonicalize, StatsCalculator.dedupGo]
  · simp [StatsCalculator.calculateUserStats, StatsCalculator.assembleCore,
      StatsCalculator.decisionPct, StatsCalculator.decisionMinutes, StatsCalculator.totalMinutes,
      StatsCalculator.canonicalize, StatsCalculator.dedupGo]
  · rcases supp with _ | s
    · left
      rfl
    · simp only [StatsCalculator.calculateUserStats, StatsCalculator.assembleCore,
        StatsCalculator.libraryPercentage, StatsCalculator.canonicalize, StatsCalculator.dedupGo]
      by_cases hz : s.libraryMovieCount + s.libraryShowCount = 0
      · left
        simp [hz, StatsCalculator.groupBy]
      · right
        simp [hz, StatsCalculator.groupBy]
  · simp [StatsCalculator.calculateUserStats, StatsCalculator.assembleCore,
      StatsCalculator.evalRules, StatsCalculator.funFactRules, StatsCalculator.topGroups,
      StatsCalculator.groupBy, StatsCalculator.canonicalize, StatsCalculator.dedupGo,
      StatsCalculator.longestBinge, StatsCalculator.bingeSessions,
      StatsCalculator.mostActiveDayOfWeek, StatsCalculator.mostActiveHour,
      StatsCalculator.argmaxCalendar, StatsCalculator.longestStreak, StatsCalculator.activeDays]
  · simp [StatsCalculator.calculateUserStats, StatsCalculator.assembleCore,
      StatsCalculator.evalRules, StatsCalculator.badgeRules, StatsCalculator.totalMinutes,
      StatsCalculator.canonicalize, StatsCalculator.dedupGo, StatsCalculator.activeDays,
      StatsCalculator.topGroups, StatsCalculator.groupBy]

/-- C7: the engine's output is invariant under any permutation of the input
event list — the canonical internal sort makes the result a function of the
input's multiset of events only. -/
theorem engine_order_independent (cfg : StatsCalculator.EngineConfig) (year : Nat)
    (supp : Option StatsCalculator.SupplementaryMetadata)
    {l1 l2 : List StatsCalculator.WatchEvent} (hp : l1.Perm l2) :
    StatsCalculator.calculateUserStats cfg year supp l1 =
      StatsCalculator.calculateUserStats cfg year supp l2 := by
  have hcanon : StatsCalculator.canonicalize year l1 = StatsCalculator.canonicalize year l2 := by
    unfold StatsCalculator.canonicalize
    have hf := hp.filter (StatsCalculator.qualifies year)
    have hperm :
        (List.insertionSort StatsCalculator.eventLe
            (l1.filter (StatsCalculator.qualifies year))).Perm
          (List.insertionSort StatsCalculator.eventLe
            (l2.filter (StatsCalculator.qualifies year))) :=
      ((List.perm_insertionSort _ _).trans hf).trans (List.perm_insertionSort _ _).symm
    have hsorted1 := List.sorted_insertionSort StatsCalculator.eventLe
      (l1.filter (StatsCalculator.qualifies year))
    have hsorted2 := List.sorted_insertionSort StatsCalculator.eventLe
      (l2.filter (StatsCalculator.qualifies year))
    rw [List.eq_of_perm_of_sorted hperm hsorted1 hsorted2]
  have hcount :
      l1.countP (fun (e : StatsCalculator.WatchEvent) => decide (e.durationWatchedMinutes < 0)) =
        l2.countP (fun (e : StatsCalculator.WatchEvent) => decide (e.durationWatchedMinutes < 0)) :=
    hp.countP_eq _
  unfold StatsCalculator.calculateUserStats
  rw [hcanon, hcount]

/-- A concrete movie event for exercising the engine. -/
def sampleEventA : StatsCalculator.WatchEvent :=
  { mediaKind := StatsCalculator.MediaKind.movie, ratingKey := 101, title := "Blade Runner",
    showTitle := none, seasonNumber := none, episodeNumber := none, releaseYear := some 1982,
    startedAt := { year := 2025, month := 3, day := 14, hour := 20, minute := 5 },
    durationWatchedMinutes := 117, device := "Shield", platform := "Android TV",
    playDecision := StatsCalculator.PlayDecision.directPlay, resolution := "4k",
    genres := ["Sci-Fi"], actors := ["Harrison Ford"], directors := ["Ridley Scott"] }

/-- A concrete episode event for exercising the engine. -/
def sampleEventB : StatsCalculator.WatchEvent :=
  { mediaKind := StatsCalculator.MediaKind.episode, ratingKey := 202, title := "Ozymandias",
    showTitle := some "Breaking Bad", seasonNumber := some 5, episodeNumber := some 14,
    releaseYear := some 2013,
    startedAt := { year := 2025, month := 3, day := 14, hour := 22, minute := 30 },
    durationWatchedMinutes := 47, device := "iPhone", platform := "iOS",
    playDecision := StatsCalculator.PlayDecision.transcode, resolution := "1080",
    genres := ["Drama"], actors := ["Bryan Cranston"], directors := ["Rian Johnson"] }

/-- C7 witness: the two orderings of a concrete two-event history are a
permutation of one another and produce the same `UserYearStats`. -/
theorem engine_order_independent_witness :
    ([sampleEventA, sampleEventB]).Perm [sampleEventB, sampleEventA]
  ∧ StatsCalculator.calculateUserStats {} 2025 none [sampleEventA, sampleEventB] =
      StatsCalculator.calculateUserStats {} 2025 none [sampleEventB, sampleEventA] :=
  ⟨List.Perm.swap sampleEventB sampleEventA [],
   engine_order_independent {} 2025 none (List.Perm.swap sampleEventB sampleEventA [])⟩

namespace Orchestrator

theorem find?_update_list (l : List GenerationRec) (gid : Nat)
    (f : GenerationRec → GenerationRec) (hf : ∀ g, (f g).id = g.id) :
    (l.map (fun g => if g.id == gid then f g else g)).find? (fun g => g.id == gid) =
      (l.find? (fun g => g.id == gid)).map f := by
  induction l with
  | nil => rfl
  | cons g rest ih =>
      cases hgb : (g.id == gid) with
      | true =>
          have hfg : ((f g).id == gid) = true := by
            rw [hf g]
            exact hgb
          simp only [List.map_cons, hgb]
          rw [if_true]
          rw [List.find?_cons, List.find?_cons, hfg, hgb]
          rfl
      | false =>
          simp only [List.map_cons, hgb]
          rw [if_neg (by simp)]
          rw [List.find?_cons, List.find?_cons, hgb]
          exact ih

theorem getGeneration_update (gid : Nat) (f : GenerationRec → GenerationRec)
    (hf : ∀ g, (f g).id = g.id) (db : Db) :
    getGeneration gid (updateGeneration gid f db) = (getGeneration gid db).map f := by
  unfold getGeneration updateGeneration
  exact find?_update_list db.generations gid f hf

theorem getGeneration_incrementProcessed (gid : Nat) (success : Bool) (db : Db) :
    getGeneration gid (incrementProcessed gid success db) =
      (getGeneration gid db).map (fun g =>
        { g with processedUsers := g.processedUsers + 1,
                 successfulUsers := g.successfulUsers + (if success then 1 else 0),
                 failedUsers := g.failedUsers + (if success then 0 else 1) }) := by
  unfold incrementProcessed
  apply getGeneration_update
  intro g
  rfl

theorem statsCreate_ok_generations {u : Nat} {gid2 : Option Nat} {y : Nat}
    {st : StatsCalculator.UserYearStats} {pts : Nat} {db db' : Db} {row : StatsRow}
    (h : statsCreate u gid2 y st pts db = Except.ok (db', row)) :
    db'.generations = db.generations := by
  unfold statsCreate at h
  split at h
  · exact absurd h (by simp)
  · simp only [Except.ok.injEq, Prod.mk.injEq] at h
    rw [← h.1]

theorem tokenCreate_generations (statsId userId year : Nat) (createdBy : String) (db : Db) :
    ((tokenCreate statsId userId year createdBy db).1).generations = db.generations := rfl

/-- Whether the stats calculation itself fails for a user. -/
def calcFailed (calcStats : Nat → Except String StatsCalculator.UserYearStats)
    (u : UserRec) : Bool :=
  match calcStats u.plexUserId with
  | Except.error _ => true
  | Except.ok _ => false

theorem processUsers_fold (calcStats : Nat → Except String StatsCalculator.UserYearStats)
    (gid year : Nat) :
    ∀ (users : List UserRec) (db : Db) (s f : Nat) (g : GenerationRec),
      getGeneration gid db = some g →
      ∃ g' ds df,
        getGeneration gid (users.foldl (processUser calcStats gid year) (db, s, f)).1 = some g'
        ∧ (users.foldl (processUser calcStats gid year) (db, s, f)).2.1 = s + ds
        ∧ (users.foldl (processUser calcStats gid year) (db, s, f)).2.2 = f + df
        ∧ ds + df = users.length
        ∧ g'.processedUsers = g.processedUsers + users.length
        ∧ g'.successfulUsers = g.successfulUsers + ds
        ∧ g'.failedUsers = g.failedUsers + df
        ∧ users.countP (calcFailed calcStats) ≤ df := by
  intro users
  induction users with
  | nil =>
      intro db s f g hg
      exact ⟨g, 0, 0, by simpa using hg, by simp, by simp, by simp, by simp, by simp, by simp,
        by simp⟩
  | cons u rest ih =>
      intro db s f g hg
      simp only [List.foldl_cons]
      rcases hc : calcStats u.plexUserId with msg | stats
      · have hstep : processUser calcStats gid year (db, s, f) u =
            (incrementProcessed gid false db, s, f + 1) := by
          simp [processUser, hc]
        rw [hstep]
        have hg1 : getGeneration gid (incrementProcessed gid false db) =
            some { g with processedUsers := g.processedUsers + 1,
                          failedUsers := g.failedUsers + 1 } := by
          rw [getGeneration_incrementProcessed, hg]
          rfl
        obtain ⟨g', ds, df, h1, h2, h3, h4, h5, h6, h7, h8⟩ :=
          ih (incrementProcessed gid false db) s (f + 1) _ hg1
        have hcf : calcFailed calcStats u = true := by simp [calcFailed, hc]
        refine ⟨g', ds, df + 1, h1, h2, by omega, ?_, ?_, ?_, ?_, ?_⟩
        · simp only [List.length_cons]
          omega
        · simp only [List.length_cons]
          simp at h5
          omega
        · simp at h6
          omega
        · simp at h7
          omega
        · rw [List.countP_cons]
          simp [hcf]
          omega
      · rcases hsc : statsCreate u.id (some gid) year stats 0 db with msg2 | pair
        · have hstep : processUser calcStats gid year (db, s, f) u =
              (incrementProcessed gid false db, s, f + 1) := by
            simp [processUser, hc, hsc]
          rw [hstep]
          have hg1 : getGeneration gid (incrementProcessed gid false db) =
              some { g with processedUsers := g.processedUsers + 1,
                            failedUsers := g.failedUsers + 1 } := by
            rw [getGeneration_incrementProcessed, hg]
            rfl
          obtain ⟨g', ds, df, h1, h2, h3, h4, h5, h6, h7, h8⟩ :=
            ih (incrementProcessed gid false db) s (f + 1) _ hg1
          have hcf : calcFailed calcStats u = false := by simp [calcFailed, hc]
          refine ⟨g', ds, df + 1, h1, h2, by omega, ?_, ?_, ?_, ?_, ?_⟩
          · simp only [List.length_cons]
            omega
          · simp only [List.length_cons]
            simp at h5
            omega
          · simp at h6
            omega
          · simp at h7
            omega
          · rw [List.countP_cons]
            simp [hcf]
            omega
        · obtain ⟨db1, row⟩ := pair
          have hstep : processUser calcStats gid year (db, s, f) u =
              (incrementProcessed gid true ((tokenCreate row.id u.id year "generation" db1).1),
               s + 1, f) := by
            simp [processUser, hc, hsc]
          rw [hstep]
          have hgen1 : getGeneration gid ((tokenCreate row.id u.id year "generation" db1).1) =
              some g := by
            unfold getGeneration
            rw [show ((tokenCreate row.id u.id year "generation" db1).1).generations =
                db.generations from by
              rw [tokenCreate_generations, statsCreate_ok_generations hsc]]
            exact hg
          have hg1 : getGeneration gid
              (incrementProcessed gid true ((tokenCreate row.id u.id year "generation" db1).1)) =
              some { g with processedUsers := g.processedUsers + 1,
                            successfulUsers := g.successfulUsers + 1 } := by
            rw [getGeneration_incrementProcessed, hgen1]
            rfl
          obtain ⟨g', ds, df, h1, h2, h3, h4, h5, h6, h7, h8⟩ :=
            ih _ (s + 1) f _ hg1
          have hcf : calcFailed calcStats u = false := by simp [calcFailed, hc]
          refine ⟨g', ds + 1, df, h1, by omega, h3, ?_, ?_, ?_, ?_, ?_⟩
          · simp only [List.length_cons]
            omega
          · simp only [List.length_cons]
            simp at h5
            omega
          · simp at h6
            omega
          · simp at h7
            omega
          · rw [List.countP_cons]
            simp [hcf]
            omega

end Orchestrator

namespace Orchestrator

/-- The store state just before the per-user loop of the background job:
status set to `processing`, then `total_users` recorded. -/
def preparedDb (generationId : Nat) (users : List UserRec) (db : Db) : Db :=
  updateGeneration generationId (fun g => { g with totalUsers := users.length })
    (updateGeneration generationId (fun g => { g with status := "processing" }) db)

/-- The per-user loop of the background job, started from the prepared
store with both local counters at zero. -/
def runFold (calcStats : Nat → Except String StatsCalculator.UserYearStats)
    (generationId year : Nat) (users : List UserRec) (db : Db) : Db × Nat × Nat :=
  users.foldl (processUser calcStats generationId year) (preparedDb generationId users db, 0, 0)

/-- The final update of a successful run. -/
def completedPatch (sf : Nat × Nat) (g : GenerationRec) : GenerationRec :=
  { g with status := "completed", successfulUsers := sf.1, failedUsers := sf.2 }

theorem generateWrappedStats_ok_run
    (calcStats : Nat → Except String StatsCalculator.UserYearStats)
    (users : List UserRec) (generationId year : Nat) (db : Db) :
    generateWrappedStats calcStats (Except.ok users) generationId year db =
      (updateGeneration generationId
        (completedPatch ((runFold calcStats generationId year users db).2.1,
                         (runFold calcStats generationId year users db).2.2))
        ((runFold calcStats generationId year users db).1),
       ["processing", "completed"]) := rfl

theorem generateWrappedStats_err_run
    (calcStats : Nat → Except String StatsCalculator.UserYearStats)
    (msg : String) (generationId year : Nat) (db : Db) :
    generateWrappedStats calcStats (Except.error msg) generationId year db =
      (updateGeneration generationId
        (fun g => { g with status := "failed", errorLog := some msg })
        (updateGeneration generationId (fun g => { g with status := "processing" }) db),
       ["processing", "failed"]) := rfl

theorem getGeneration_preparedDb (generationId : Nat) (users : List UserRec) (db : Db)
    (g0 : GenerationRec) (hfind : getGeneration generationId db = some g0) :
    getGeneration generationId (preparedDb generationId users db) =
      some { g0 with status := "processing", totalUsers := users.length } := by
  unfold preparedDb
  have ha := getGeneration_update generationId
    (fun g => { g with status := "processing" }) (fun g => rfl) db
  have hb := getGeneration_update generationId
    (fun g => { g with totalUsers := users.length }) (fun g => rfl)
    (updateGeneration generationId (fun g => { g with status := "processing" }) db)
  rw [hb, ha, hfind]
  rfl

/-- C1: a batch generation run tolerates per-user failures — whatever the
per-user calculator outcomes are, the run processes every user, ends the
generation record in status `completed`, and that record carries the
successful and failed user counts (summing to the number of users, with at
least every calculator failure counted as failed) rather than an
all-or-nothing outcome. -/
theorem generateWrappedStats_partial_failure
    (calcStats : Nat → Except String StatsCalculator.UserYearStats)
    (users : List UserRec) (generationId year : Nat) (db : Db) (g0 : GenerationRec)
    (hfind : getGeneration generationId db = some g0)
    (hp0 : g0.processedUsers = 0) :
    ∃ g1, getGeneration generationId
        (generateWrappedStats calcStats (Except.ok users) generationId year db).1 = some g1
      ∧ g1.status = "completed"
      ∧ g1.successfulUsers + g1.failedUsers = users.length
      ∧ g1.processedUsers = users.length
      ∧ users.countP (calcFailed calcStats) ≤ g1.failedUsers := by
  obtain ⟨g', ds, df, h1, h2, h3, h4, h5, h6, h7, h8⟩ :=
    processUsers_fold calcStats generationId year users
      (preparedDb generationId users db) 0 0
      ({ g0 with status := "processing", totalUsers := users.length })
      (getGeneration_preparedDb generationId users db g0 hfind)
  rw [generateWrappedStats_ok_run]
  simp only []
  have hfin := getGeneration_update generationId
    (completedPatch ((runFold calcStats generationId year users db).2.1,
                     (runFold calcStats generationId year users db).2.2))
    (fun g => rfl) ((runFold calcStats generationId year users db).1)
  have h1' : getGeneration generationId (runFold calcStats generationId year users db).1 =
      some g' := h1
  rw [hfin, h1']
  refine ⟨_, rfl, rfl, ?_, ?_, ?_⟩
  · have h2' : (runFold calcStats generationId year users db).2.1 = 0 + ds := h2
    have h3' : (runFold calcStats generationId year users db).2.2 = 0 + df := h3
    simp only [completedPatch, h2', h3']
    omega
  · simp only [completedPatch]
    simp at h5
    omega
  · have h3' : (runFold calcStats generationId year users db).2.2 = 0 + df := h3
    simp only [completedPatch, h3']
    omega

end Orchestrator

/-- C1 witness material: an empty store, as initialized by the schema. -/
def emptyDb : Orchestrator.Db :=
  { users := [], generations := [], statsRows := [], tokens := [], emailLogs := [],
    nextGenerationId := 1, nextStatsId := 1, nextTokenId := 1, nextEmailLogId := 1 }

/-- The generation row created in `emptyDb` by `POST /api/admin/generate`. -/
def pendingGen : Orchestrator.GenerationRec :=
  { id := 1, year := 2025, status := "pending", totalUsers := 0, processedUsers := 0,
    successfulUsers := 0, failedUsers := 0, errorLog := none }

/-- The store after the generation row is created. -/
def dbWithPending : Orchestrator.Db := (Orchestrator.generationCreate 2025 emptyDb).1

/-- Two synced users, one of whom has history the calculator can fetch. -/
def sampleUsers : List Orchestrator.UserRec :=
  [ { id := 1, plexUserId := 11, username := "alice", email := some "alice@example.com",
      preferredLanguage := some "de" },
    { id := 2, plexUserId := 22, username := "bob", email := none, preferredLanguage := none } ]

/-- A calculator whose history fetch fails for Plex user 22 and succeeds for
everyone else. -/
def flakyCalc : Nat → Except String StatsCalculator.UserYearStats := fun pid =>
  if pid = 22 then Except.error "history fetch failed"
  else Except.ok (StatsCalculator.calculateUserStats {} 2025 none [])

/-- C1 witness: on a concrete two-user batch in which one user's calculation
fails, the run completes with the counts carried on the generation record. -/
theorem generateWrappedStats_partial_failure_witness :
    (Orchestrator.getGeneration 1 dbWithPending = some pendingGen
      ∧ pendingGen.processedUsers = 0)
  ∧ (∃ g1, Orchestrator.getGeneration 1
        (Orchestrator.generateWrappedStats flakyCalc (Except.ok sampleUsers) 1 2025
          dbWithPending).1 = some g1
      ∧ g1.status = "completed"
      ∧ g1.successfulUsers + g1.failedUsers = sampleUsers.length
      ∧ g1.processedUsers = sampleUsers.length
      ∧ sampleUsers.countP (Orchestrator.calcFailed flakyCalc) ≤ g1.failedUsers) :=
  ⟨⟨rfl, rfl⟩,
   Orchestrator.generateWrappedStats_partial_failure flakyCalc sampleUsers 1 2025
     dbWithPending pendingGen rfl rfl⟩

namespace Orchestrator

/-- The at-most-one-row-per-user-year invariant of `user_wrapped_stats`
(schema: `UNIQUE(user_id, year)`). -/
def StatsUnique (db : Db) : Prop :=
  db.statsRows.Pairwise (fun a b => ¬(a.userId = b.userId ∧ a.year = b.year))

theorem statsCreate_ok_unique {u : Nat} {gid2 : Option Nat} {y : Nat}
    {st : StatsCalculator.UserYearStats} {pts : Nat} {db db' : Db} {row : StatsRow}
    (h : statsCreate u gid2 y st pts db = Except.ok (db', row))
    (hu : StatsUnique db) : StatsUnique db' := by
  unfold statsCreate at h
  by_cases hdup : (db.statsRows.any (fun r => r.userId == u && r.year == y)) = true
  · rw [if_pos hdup] at h
    exact absurd h (by simp)
  · rw [if_neg hdup] at h
    simp only [Except.ok.injEq, Prod.mk.injEq] at h
    unfold StatsUnique
    rw [← h.1]
    simp only []
    rw [List.pairwise_append]
    refine ⟨hu, by simp, ?_⟩
    intro a ha b hb
    simp only [List.mem_singleton] at hb
    subst hb
    rintro ⟨hau, hay⟩
    have hfalse : db.statsRows.any (fun r => r.userId == u && r.year == y) = false := by
      cases hone : db.statsRows.any (fun r => r.userId == u && r.year == y)
      · rfl
      · exact absurd hone hdup
    have := List.any_eq_false.mp hfalse a ha
    simp [hau, hay] at this

theorem statsRows_incrementProcessed (gid : Nat) (success : Bool) (db : Db) :
    (incrementProcessed gid success db).statsRows = db.statsRows := rfl

theorem processUser_unique (calcStats : Nat → Except String StatsCalculator.UserYearStats)
    (gid year : Nat) (db : Db) (s f : Nat) (u : UserRec) (hu : StatsUnique db) :
    StatsUnique ((processUser calcStats gid year (db, s, f) u).1) := by
  rcases hc : calcStats u.plexUserId with msg | stats
  · have hstep : (processUser calcStats gid year (db, s, f) u).1 =
        incrementProcessed gid false db := by
      simp [processUser, hc]
    rw [hstep]
    exact hu
  · rcases hsc : statsCreate u.id (some gid) year stats 0 db with msg2 | pair
    · have hstep : (processUser calcStats gid year (db, s, f) u).1 =
          incrementProcessed gid false db := by
        simp [processUser, hc, hsc]
      rw [hstep]
      exact hu
    · obtain ⟨db1, row⟩ := pair
      have hstep : (processUser calcStats gid year (db, s, f) u).1 =
          incrementProcessed gid true ((tokenCreate row.id u.id year "generation" db1).1) := by
        simp [processUser, hc, hsc]
      rw [hstep]
      have h1 : StatsUnique db1 := statsCreate_ok_unique hsc hu
      exact h1

theorem processUsers_fold_unique (calcStats : Nat → Except String StatsCalculator.UserYearStats)
    (gid year : Nat) :
    ∀ (users : List UserRec) (db : Db) (s f : Nat), StatsUnique db →
      StatsUnique ((users.foldl (processUser calcStats gid year) (db, s, f)).1) := by
  intro users
  induction users with
  | nil => intro db s f hu; exact hu
  | cons u rest ih =>
      intro db s f hu
      simp only [List.foldl_cons]
      have hstep := processUser_unique calcStats gid year db s f u hu
      exact ih (processUser calcStats gid year (db, s, f) u).1
        (processUser calcStats gid year (db, s, f) u).2.1
        (processUser calcStats gid year (db, s, f) u).2.2 hstep

/-- C3: at most one `user_wrapped_stats` row per user-year.  The invariant
is preserved by every orchestrator run (for any calculator outcomes and
user list), and it is the store's insert — not the engine — that enforces
it: an insert for an already-present `(user_id, year)` pair fails with the
uniqueness violation, and the engine itself is a pure function with no
access to the store. -/
theorem statsUnique_preserved_and_enforced
    (calcStats : Nat → Except String StatsCalculator.UserYearStats)
    (fetchUsers : Except String (List UserRec)) (generationId year : Nat) (db : Db)
    (h : StatsUnique db) :
    StatsUnique ((generateWrappedStats calcStats fetchUsers generationId year db).1)
  ∧ (∀ (u y : Nat) (gid2 : Option Nat) (st : StatsCalculator.UserYearStats) (pts : Nat)
      (db0 : Db) (r : StatsRow), r ∈ db0.statsRows → r.userId = u → r.year = y →
      statsCreate u gid2 y st pts db0 =
        Except.error
          "duplicate key value violates unique constraint user_wrapped_stats_user_id_year_key") := by
  constructor
  · rcases fetchUsers with msg | users
    · rw [generateWrappedStats_err_run]
      exact h
    · rw [generateWrappedStats_ok_run]
      exact processUsers_fold_unique calcStats generationId year users
        (preparedDb generationId users db) 0 0 h
  · intro u y gid2 st pts db0 r hr hru hry
    unfold statsCreate
    rw [if_pos (List.any_eq_true.mpr ⟨r, hr, by simp [hru, hry]⟩)]

end Orchestrator

/-- C3 witness: the invariant holds on the concrete store and is preserved
by the concrete two-user run. -/
theorem statsUnique_preserved_and_enforced_witness :
    Orchestrator.StatsUnique dbWithPending
  ∧ Orchestrator.StatsUnique
      ((Orchestrator.generateWrappedStats flakyCalc (Except.ok sampleUsers) 1 2025
        dbWithPending).1) :=
  ⟨by simp [Orchestrator.StatsUnique, dbWithPending, emptyDb, Orchestrator.generationCreate],
   (Orchestrator.statsUnique_preserved_and_enforced flakyCalc (Except.ok sampleUsers) 1 2025
     dbWithPending
     (by simp [Orchestrator.StatsUnique, dbWithPending, emptyDb,
       Orchestrator.generationCreate])).1⟩

namespace Orchestrator

theorem getGeneration_generationCreate (year : Nat) (db : Db)
    (hfresh : ∀ g ∈ db.generations, g.id < db.nextGenerationId) :
    getGeneration db.nextGenerationId (generationCreate year db).1 =
      some (generationCreate year db).2 := by
  unfold getGeneration generationCreate
  simp only []
  rw [List.find?_append]
  have h1 : db.generations.find? (fun g => g.id == db.nextGenerationId) = none := by
    rw [List.find?_eq_none]
    intro g hg
    simp only [beq_iff_eq]
    exact Nat.ne_of_lt (hfresh g hg)
  rw [h1]
  simp [List.find?_cons]

/-- C4: every generation record follows the lifecycle pending →
processing → exactly one of completed | failed; every status value it
takes is in the schema's CHECK set, and the final persisted status is the
last value of the trace.  (The statuses are written by the orchestrator
alone; the engine is a pure function with no access to the store.) -/
theorem generation_lifecycle
    (calcStats : Nat → Except String StatsCalculator.UserYearStats)
    (fetchUsers : Except String (List UserRec)) (year : Nat) (db : Db)
    (hfresh : ∀ g ∈ db.generations, g.id < db.nextGenerationId) :
    ((postGenerate calcStats fetchUsers year db).2.2 = ["pending", "processing", "completed"]
      ∨ (postGenerate calcStats fetchUsers year db).2.2 = ["pending", "processing", "failed"])
  ∧ (∀ st ∈ (postGenerate calcStats fetchUsers year db).2.2,
      st ∈ Schema.allowedGenerationStatuses)
  ∧ ∃ g, getGeneration (postGenerate calcStats fetchUsers year db).2.1
        (postGenerate calcStats fetchUsers year db).1 = some g
      ∧ (postGenerate calcStats fetchUsers year db).2.2.getLast? = some g.status := by
  have hcreate := getGeneration_generationCreate year db hfresh
  rcases fetchUsers with msg | users
  · refine ⟨Or.inr rfl, ?_, ?_⟩
    · intro st hst
      have htr : (postGenerate calcStats (Except.error msg) year db).2.2 =
          ["pending", "processing", "failed"] := rfl
      rw [htr] at hst
      simp only [List.mem_cons, List.not_mem_nil, or_false] at hst
      rcases hst with rfl | rfl | rfl <;> decide
    have hrun : (postGenerate calcStats (Except.error msg) year db).1 =
        updateGeneration db.nextGenerationId
          (fun g => { g with status := "failed", errorLog := some msg })
          (updateGeneration db.nextGenerationId (fun g => { g with status := "processing" })
            (generationCreate year db).1) := rfl
    have ha := getGeneration_update db.nextGenerationId
      (fun g => { g with status := "processing" }) (fun g => rfl) (generationCreate year db).1
    have hb := getGeneration_update db.nextGenerationId
      (fun g => { g with status := "failed", errorLog := some msg }) (fun g => rfl)
      (updateGeneration db.nextGenerationId (fun g => { g with status := "processing" })
        (generationCreate year db).1)
    have hgetg : getGeneration (postGenerate calcStats (Except.error msg) year db).2.1
        (postGenerate calcStats (Except.error msg) year db).1 =
        some { (generationCreate year db).2 with status := "failed", errorLog := some msg } := by
      show getGeneration db.nextGenerationId _ = _
      rw [hrun, hb, ha, hcreate]
      rfl
    exact ⟨_, hgetg, rfl⟩
  · refine ⟨Or.inl rfl, ?_, ?_⟩
    · intro st hst
      have htr : (postGenerate calcStats (Except.ok users) year db).2.2 =
          ["pending", "processing", "completed"] := rfl
      rw [htr] at hst
      simp only [List.mem_cons, List.not_mem_nil, or_false] at hst
      rcases hst with rfl | rfl | rfl <;> decide
    obtain ⟨g', ds, df, h1, h2, h3, h4, h5, h6, h7, h8⟩ :=
      processUsers_fold calcStats db.nextGenerationId year users
        (preparedDb db.nextGenerationId users (generationCreate year db).1) 0 0
        ({ (generationCreate year db).2 with status := "processing", totalUsers := users.length })
        (getGeneration_preparedDb db.nextGenerationId users (generationCreate year db).1
          (generationCreate year db).2 hcreate)
    have hrun : (postGenerate calcStats (Except.ok users) year db).1 =
        updateGeneration db.nextGenerationId
          (completedPatch
            ((runFold calcStats db.nextGenerationId year users (generationCreate year db).1).2.1,
             (runFold calcStats db.nextGenerationId year users (generationCreate year db).1).2.2))
          ((runFold calcStats db.nextGenerationId year users (generationCreate year db).1).1) :=
      rfl
    have hfin := getGeneration_update db.nextGenerationId
      (completedPatch
        ((runFold calcStats db.nextGenerationId year users (generationCreate year db).1).2.1,
         (runFold calcStats db.nextGenerationId year users (generationCreate year db).1).2.2))
      (fun g => rfl)
      ((runFold calcStats db.nextGenerationId year users (generationCreate year db).1).1)
    have h1' : getGeneration db.nextGenerationId
        (runFold calcStats db.nextGenerationId year users (generationCreate year db).1).1 =
        some g' := h1
    have hgetg : getGeneration (postGenerate calcStats (Except.ok users) year db).2.1
        (postGenerate calcStats (Except.ok users) year db).1 =
        some (completedPatch
          ((runFold calcStats db.nextGenerationId year users (generationCreate year db).1).2.1,
           (runFold calcStats db.nextGenerationId year users (generationCreate year db).1).2.2)
          g') := by
      show getGeneration db.nextGenerationId _ = _
      rw [hrun, hfin, h1']
      rfl
    exact ⟨_, hgetg, rfl⟩

end Orchestrator

/-- C4 witness: a concrete run on the empty store produces the
pending/processing/completed trace with the final status persisted. -/
theorem generation_lifecycle_witness :
    (∀ g ∈ emptyDb.generations, g.id < emptyDb.nextGenerationId)
  ∧ (((Orchestrator.postGenerate flakyCalc (Except.ok sampleUsers) 2025 emptyDb).2.2 =
        ["pending", "processing", "completed"]
      ∨ (Orchestrator.postGenerate flakyCalc (Except.ok sampleUsers) 2025 emptyDb).2.2 =
        ["pending", "processing", "failed"])
    ∧ (∀ st ∈ (Orchestrator.postGenerate flakyCalc (Except.ok sampleUsers) 2025 emptyDb).2.2,
        st ∈ Schema.allowedGenerationStatuses)
    ∧ ∃ g, Orchestrator.getGeneration
          (Orchestrator.postGenerate flakyCalc (Except.ok sampleUsers) 2025 emptyDb).2.1
          (Orchestrator.postGenerate flakyCalc (Except.ok sampleUsers) 2025 emptyDb).1 = some g
        ∧ (Orchestrator.postGenerate flakyCalc (Except.ok sampleUsers) 2025
            emptyDb).2.2.getLast? = some g.status) :=
  ⟨by simp [emptyDb],
   Orchestrator.generation_lifecycle flakyCalc (Except.ok sampleUsers) 2025 emptyDb
     (by simp [emptyDb])⟩

namespace Orchestrator

/-- C10: when test mode is in effect — the request's `testMode` is `true`,
or `testMode` is omitted and the `TEST_MODE` environment flag is enabled —
the batch e-mail endpoint returns the success response with `testMode:
true` and leaves all state unchanged: no e-mail-log rows are created and
no e-mails are handed to SMTP, regardless of the generation or user ids
supplied. -/
theorem emailsSend_testMode_frame (smtp : EmailMessage → Bool)
    (envTestMode appUrl : String) (req : EmailsSendRequest) (db : Db)
    (h : req.testMode = some true ∨ (req.testMode = none ∧ envTestMode = "true")) :
    emailsSendEndpoint smtp envTestMode appUrl req db = (testModeResponse, db, []) := by
  have ht : isTestMode req envTestMode = true := by
    rcases h with h1 | ⟨h1, h2⟩
    · simp [isTestMode, h1]
    · simp [isTestMode, h1, h2]
  unfold emailsSendEndpoint
  rw [if_pos ht]

end Orchestrator

/-- C10 witness: a concrete request with `testMode: true` (and another with
`testMode` omitted under `TEST_MODE=true`) leaves the concrete store
untouched and sends nothing. -/
theorem emailsSend_testMode_frame_witness :
    (({ generationId := some 1, userIds := some [1, 2], testMode := some true } :
        Orchestrator.EmailsSendRequest).testMode = some true
      ∧ Orchestrator.emailsSendEndpoint (fun _ => true) "false" "http://app"
          { generationId := some 1, userIds := some [1, 2], testMode := some true }
          dbWithPending = (Orchestrator.testModeResponse, dbWithPending, []))
  ∧ (({ generationId := some 1, userIds := none, testMode := none } :
        Orchestrator.EmailsSendRequest).testMode = none
      ∧ Orchestrator.emailsSendEndpoint (fun _ => true) "true" "http://app"
          { generationId := some 1, userIds := none, testMode := none }
          dbWithPending = (Orchestrator.testModeResponse, dbWithPending, [])) :=
  ⟨⟨rfl,
    Orchestrator.emailsSend_testMode_frame (fun _ => true) "false" "http://app"
      { generationId := some 1, userIds := some [1, 2], testMode := some true }
      dbWithPending (Or.inl rfl)⟩,
   ⟨rfl,
    Orchestrator.emailsSend_testMode_frame (fun _ => true) "true" "http://app"
      { generationId := some 1, userIds := none, testMode := none }
      dbWithPending (Or.inr ⟨rfl, rfl⟩)⟩⟩
